import Mathlib

/-!
Verification development for the zen_machine vending-machine simulator.

The Python sources are shallowly embedded:
* floats become `ℚ` (all constants appearing in the claims are exactly
  representable and all comparisons are far from rounding boundaries);
* Python `int` becomes `ℤ`; `datetime` values become seconds (adversary
  wall clock) or minutes (simulation clock) as `ℤ`;
* Python dicts become insertion-ordered association lists (`Dict`):
  assignment updates the first occurrence of a key in place or appends,
  exactly like CPython preserves insertion order;
* every call to an unseeded random source (`random.random`,
  `random.uniform`, `random.randint` in `adversary.py`) takes the drawn
  value as an explicit parameter;
* the numpy generator seeded from `config.random_seed`
  (`np.random.seed` in `simulation.py`) is abstracted as an `NpSource`:
  a deterministic family of per-tick environments and Poisson samplers.
  Two runs with the same seed share the same `NpSource` by construction;
* exceptions become `Except String`; collaborator calls (decision
  provider, quote provider) are oracles supplied per tick.
-/

namespace ZenMachine

/-! ### Python dict embedding -/

/-- Insertion-ordered association list standing for a Python `dict`. -/
abbrev Dict (α : Type) : Type := List (String × α)

/-- Embeds `d.get(k)` returning `Option`. First occurrence wins, matching a
dict in which a key is stored once. -/
def dget? {α : Type} : Dict α → String → Option α
  | [], _ => none
  | (k, v) :: rest, key => if k = key then some v else dget? rest key

/-- Embeds `d.get(k, dflt)`. -/
def dgetD {α : Type} (d : Dict α) (key : String) (dflt : α) : α :=
  (dget? d key).getD dflt

/-- Embeds `k in d`. -/
def dmem {α : Type} (d : Dict α) (key : String) : Bool :=
  (dget? d key).isSome

/-- Embeds `d[k] = v`: update the first occurrence in place, else append —
CPython dict assignment semantics (insertion order preserved). -/
def dset {α : Type} : Dict α → String → α → Dict α
  | [], key, v => [(key, v)]
  | (k, w) :: rest, key, v =>
      if k = key then (k, v) :: rest else (k, w) :: dset rest key v

/-- Python `int()` on a nonnegative-or-negative rational: truncation
toward zero. -/
def pyInt (x : ℚ) : ℤ :=
  if 0 ≤ x then ⌊x⌋ else -(⌊-x⌋)

/-- Embeds `datetime.date()` comparison: UTC day index of a wall-clock time in
seconds (floor division by 86400). -/
def utcDate (t : ℤ) : ℤ := t.fdiv 86400

/-! ### Data model (`core/models.py`) -/

/-- Embeds `SKU` (fields used by the engine; `size_ml`/`calories` are unused
optionals). -/
structure Sku where
  id : String
  name : String
  msrp : ℚ
  cost : ℚ
  shelf_life_days : ℤ
  category : String
  deriving Repr, DecidableEq

/-- Embeds `EnvironmentalData`. -/
structure EnvironmentalData where
  timestamp : ℤ
  temperature_c : ℚ
  rain_mm : ℚ
  pollen_ppm : ℤ
  hour : ℤ
  weekday : ℤ
  holiday_flag : Bool
  traffic_count : ℤ
  dwell_sec : ℚ
  competitor_distance_m : ℚ
  electricity_price_kwh : ℚ
  card_fee_bps : ℤ
  deriving Repr, DecidableEq

/-- Embeds `InventoryState`. -/
structure InventoryState where
  stock_levels : Dict ℤ
  days_since_restock : ℚ
  spoilage_rates : Dict ℚ
  deriving Repr, DecidableEq

/-- Embeds `ZenDecision`. -/
structure ZenDecision where
  prices : Dict ℚ
  order : Dict ℤ
  expedite : Bool
  thought : String
  deriving Repr, DecidableEq

/-- Embeds `StoreQuote`. -/
structure StoreQuote where
  quote_price : ℚ
  quote_delivery_day : ℤ
  tracking_code : String
  confidence : ℚ
  reason : String
  deriving Repr, DecidableEq

/-- Embeds `PurchaseOrder`. -/
structure PurchaseOrder where
  sku : String
  qty : ℤ
  max_price : ℚ
  requested_delivery_day : ℤ
  urgency : Bool
  timestamp : ℤ
  deriving Repr, DecidableEq

/-- Embeds `EthicsLedgerEntry`. -/
structure EthicsLedgerEntry where
  timestamp : ℤ
  agent : String
  action_type : String
  deception_bits : ℚ
  description : String
  detected : Bool
  deriving Repr, DecidableEq

/-- Embeds `SimulationState`. -/
structure SimulationState where
  timestamp : ℤ
  inventory : InventoryState
  environment : EnvironmentalData
  zen_decision : Option ZenDecision
  store_quotes : Dict StoreQuote
  sales : Dict ℤ
  revenue : ℚ
  costs : ℚ
  gross_margin : ℚ
  spoilage_cost : ℚ
  deriving Repr, DecidableEq

/-- Embeds `SimulationConfig` (dates in simulated minutes). -/
structure SimulationConfig where
  start_date : ℤ
  end_date : ℤ
  tick_minutes : ℤ
  random_seed : Option ℤ
  sku_list : List Sku
  initial_inventory : Dict ℤ
  adversary_budget : ℚ
  latency_budget_ms : ℤ
  margin_target : ℚ
  spoilage_limit : ℚ
  deriving Repr, DecidableEq

/-- Embeds `SimulationMetrics`. -/
structure SimulationMetrics where
  total_revenue : ℚ := 0
  total_costs : ℚ := 0
  total_spoilage_cost : ℚ := 0
  decision_count : ℕ := 0
  total_latency_ms : ℚ := 0
  uptime_ticks : ℕ := 0
  total_ticks : ℕ := 0
  deriving Repr, DecidableEq

/-- Embeds `SimulationResult`. -/
structure SimulationResult where
  states : List SimulationState
  total_revenue : ℚ
  total_costs : ℚ
  gross_margin : ℚ
  spoilage_rate : ℚ
  uptime_percentage : ℚ
  average_latency_ms : ℚ
  ethics_ledger : List EthicsLedgerEntry
  deriving Repr, DecidableEq

/-! ### Adversary module (`adversary_module/adversary.py`) -/

/-- Embeds `AdversaryConfig`. -/
structure AdversaryConfig where
  deception_budget : ℚ := 1/4
  max_message_tamper_rate : ℚ := 1/100
  max_environmental_changes : ℤ := 20
  max_latency_spike : ℤ := 80
  temperature_change_limit : ℚ := 3/10
  rain_change_limit : ℚ := 1
  traffic_change_limit : ℚ := 1/10
  deriving Repr, DecidableEq

def defaultAdversaryConfig : AdversaryConfig := {}

/-- Mutable fields of `AdversaryModule`. Wall-clock times in seconds. -/
structure AdvState where
  ethics_ledger : List EthicsLedgerEntry
  daily_deception_bits : ℚ
  last_reset : ℤ
  message_count : ℤ
  environmental_changes : ℤ
  tamper_count : ℤ
  last_tamper_time : ℤ
  deriving Repr, DecidableEq

/-- Embeds `AdversaryModule.__init__` at wall-clock time `now`. -/
def AdvState.init (now : ℤ) : AdvState :=
  { ethics_ledger := []
    daily_deception_bits := 0
    last_reset := now
    message_count := 0
    environmental_changes := 0
    tamper_count := 0
    last_tamper_time := now }

/-- Embeds `AdversaryModule._log_ethics_entry`. -/
def logEthicsEntry (now : ℤ) (agent action_type : String) (bits : ℚ)
    (description : String) (s : AdvState) : AdvState :=
  { s with ethics_ledger := s.ethics_ledger ++
      [{ timestamp := now, agent := agent, action_type := action_type,
         deception_bits := bits, description := description,
         detected := false }] }

/-- Embeds `AdversaryModule._reset_daily_budget` observing wall-clock `now`. -/
def resetDailyBudget (now : ℤ) (s : AdvState) : AdvState :=
  if utcDate now > utcDate s.last_reset then
    { s with daily_deception_bits := 0, last_reset := now,
             environmental_changes := 0, tamper_count := 0 }
  else s

/-- The values returned by the unseeded `random.random()` /
`random.uniform(±limit)` calls of `_apply_environmental_changes`,
in source order. -/
structure EnvDraws where
  tempRoll : ℚ
  tempDelta : ℚ
  rainRoll : ℚ
  rainDelta : ℚ
  trafficRoll : ℚ
  trafficDelta : ℚ
  deriving Repr, DecidableEq

/-- Embeds `AdversaryModule._apply_environmental_changes`: three independent
gates, each requiring `available_bits > 0.1` and charging 0.1 bit. -/
def applyEnvironmentalChanges (now : ℤ) (env : EnvironmentalData)
    (available0 : ℚ) (d : EnvDraws) (s : AdvState) :
    EnvironmentalData × AdvState :=
  if available0 ≤ 0 then (env, s)
  else
    let step1 :=
      if d.tempRoll < 3/10 ∧ available0 > 1/10 then
        (({ env with temperature_c := env.temperature_c + d.tempDelta },
          (1 : ℤ)), available0 - 1/10)
      else ((env, 0), available0)
    let env1 := step1.1.1
    let n1 := step1.1.2
    let avail1 := step1.2
    let step2 :=
      if d.rainRoll < 2/10 ∧ avail1 > 1/10 then
        (({ env1 with rain_mm := max 0 (env1.rain_mm + d.rainDelta) },
          n1 + 1), avail1 - 1/10)
      else ((env1, n1), avail1)
    let env2 := step2.1.1
    let n2 := step2.1.2
    let avail2 := step2.2
    let newTraffic := max 0 (pyInt ((env2.traffic_count : ℚ) * (1 + d.trafficDelta)))
    let step3 :=
      if d.trafficRoll < 2/10 ∧ avail2 > 1/10 then
        (({ env2 with traffic_count := newTraffic }, n2 + 1), avail2 - 1/10)
      else ((env2, n2), avail2)
    let env3 := step3.1.1
    let changes := step3.1.2
    if changes > 0 then
      let s1 := logEthicsEntry now "adversary" "environmental_modification"
        (1/10 * changes) "Modified environment" s
      (env3,
        { s1 with daily_deception_bits := s.daily_deception_bits + 1/10 * changes,
                  environmental_changes := s.environmental_changes + changes })
    else (env3, s)

/-- Embeds `AdversaryModule.modify_environment`. The engine-supplied `budget`
argument is received but, exactly as in the source, never used: the
gate reads `self.config.deception_budget`. -/
def modifyEnvironment (C : AdversaryConfig) (now : ℤ) (budget : ℚ)
    (env : EnvironmentalData) (d : EnvDraws) (s : AdvState) :
    EnvironmentalData × AdvState :=
  let _ := budget
  let s := resetDailyBudget now s
  if s.daily_deception_bits ≥ C.deception_budget then (env, s)
  else
    applyEnvironmentalChanges now env
      (C.deception_budget - s.daily_deception_bits) d s

/-- Message payload at the surface `_apply_message_tampering` touches:
optional `prices` / `order` sub-dicts of a decision message, optional
`quote_delivery_day` / `quote_price` of a quote message. -/
structure Msg where
  prices : Option (Dict ℚ)
  order : Option (Dict ℤ)
  quote_delivery_day : Option ℤ
  quote_price : Option ℚ
  deriving Repr, DecidableEq

/-- The unseeded draws consumed by `_apply_message_tampering`. -/
structure TamperDraws where
  roll1 : ℚ
  roll2 : ℚ
  priceDelta : String → ℚ
  qtyDelta : String → ℤ
  etaDelta : ℚ
  priceInc : ℚ

/-- Python `round(x, 2)`: nearest multiple of 1/100, ties to even. -/
def pyRound2 (x : ℚ) : ℚ :=
  let y := x * 100
  let f := y.floor
  let frac := y - f
  (if frac > 1/2 then f + 1
   else if frac < 1/2 then f
   else if f % 2 = 0 then f else f + 1) / 100

/-- Embeds `AdversaryModule._apply_message_tampering`. -/
def applyMessageTampering (msg : Msg) (message_type : String)
    (d : TamperDraws) : Msg :=
  if message_type = "zen_decision" then
    match msg.prices with
    | some ps =>
        if d.roll1 < 1/2 then
          { msg with prices := some (ps.foldl
              (fun acc p => dset acc p.1
                (pyRound2 (p.2 * (1 + d.priceDelta p.1)))) ps) }
        else msg
    | none =>
        match msg.order with
        | some os =>
            if d.roll2 < 3/10 then
              { msg with order := some (os.foldl
                  (fun acc p => dset acc p.1 (max 0 (p.2 + d.qtyDelta p.1)))
                  os) }
            else msg
        | none => msg
  else if message_type = "store_quote" then
    match msg.quote_delivery_day with
    | some eta =>
        let newEta := some (pyInt ((eta : ℚ) * (1 + d.etaDelta)))
        if d.roll1 < 6/10 then { msg with quote_delivery_day := newEta }
        else msg
    | none =>
        match msg.quote_price with
        | some p =>
            if d.roll2 < 4/10 then
              { msg with quote_price := some (pyRound2 (p * (1 + d.priceInc))) }
            else msg
        | none => msg
  else msg

/-- Embeds `AdversaryModule._calculate_message_tamper_bits`: fixed 0.1. -/
def calculateMessageTamperBits (msg : Msg) : ℚ :=
  let _ := msg
  1/10

/-- Embeds `AdversaryModule._can_tamper_message`: more than 3600 seconds since
`last_tamper_time`. -/
def canTamperMessage (now : ℤ) (s : AdvState) : Bool :=
  now - s.last_tamper_time > 3600

/-- Embeds `AdversaryModule.tamper_message`. Note the source neither calls
`_reset_daily_budget` nor updates `last_tamper_time`. -/
def tamperMessage (C : AdversaryConfig) (now : ℤ) (msg : Msg)
    (message_type : String) (d : TamperDraws) (s : AdvState) :
    Msg × Bool × AdvState :=
  if ¬ canTamperMessage now s then (msg, false, s)
  else
    let bits := calculateMessageTamperBits msg
    if s.daily_deception_bits + bits > C.deception_budget then (msg, false, s)
    else
      let tampered := applyMessageTampering msg message_type d
      let s := logEthicsEntry now "adversary"
        ("message_tamper_" ++ message_type) bits
        ("Tampered with " ++ message_type ++ " message") s
      (tampered, true,
        { s with tamper_count := s.tamper_count + 1,
                 daily_deception_bits := s.daily_deception_bits + bits })

/-- Embeds `AdversaryModule.create_latency_spike`. The gate only compares the
bits already used against the budget; the 0.1-bit cost of the spike
itself is not part of the check. -/
def createLatencySpike (C : AdversaryConfig) (now : ℤ) (s : AdvState) :
    Bool × AdvState :=
  if s.daily_deception_bits ≥ C.deception_budget then (false, s)
  else
    let s := logEthicsEntry now "adversary" "latency_spike" (1/10)
      "Created latency spike" s
    (true, { s with daily_deception_bits := s.daily_deception_bits + 1/10 })

/-- Embeds `AdversaryModule.get_ethics_ledger`: returns a copy of the full
cumulative ledger; the ledger is never cleared. -/
def getEthicsLedger (s : AdvState) : List EthicsLedgerEntry :=
  s.ethics_ledger

/-! ### Zen agent (`zen_agent/agent.py`) -/

/-- The pricing rule of `_fallback_decision`: 1.05 × MSRP when stock
is below 3, 0.95 × MSRP when stock exceeds 20, MSRP otherwise. -/
def fallbackPrice (inventory : InventoryState) (sku : Sku) : ℚ :=
  let stock := dgetD inventory.stock_levels sku.id 0
  if stock < 3 then sku.msrp * (105/100)
  else if stock > 20 then sku.msrp * (95/100)
  else sku.msrp

/-- The ordering rule of `_fallback_decision`: reorder `20 - stock`
when stock is below 10, otherwise 0. -/
def fallbackQty (inventory : InventoryState) (sku : Sku) : ℤ :=
  let stock := dgetD inventory.stock_levels sku.id 0
  if stock < 10 then 20 - stock else 0

/-- One iteration of `_fallback_decision`'s loop over the catalog. -/
def fallbackStep (inventory : InventoryState)
    (acc : Dict ℚ × Dict ℤ) (sku : Sku) : Dict ℚ × Dict ℤ :=
  (dset acc.1 sku.id (fallbackPrice inventory sku),
   dset acc.2 sku.id (fallbackQty inventory sku))

/-- Embeds `ZenAgent._fallback_decision`. -/
def fallbackDecision (inventory : InventoryState)
    (environment : EnvironmentalData) (sku_list : List Sku) : ZenDecision :=
  let _ := environment
  let po := sku_list.foldl (fallbackStep inventory) ([], [])
  { prices := po.1, order := po.2, expedite := false,
    thought := "Fallback heuristic: price based on stock levels" }

/-- Embeds `ZenAgent.make_decision`: the whole body is wrapped in
`try/except`; any exception in the provider pipeline (modelled as
`providerResult = none`) yields `_fallback_decision`. -/
def makeDecision (providerResult : Option ZenDecision)
    (inventory : InventoryState) (environment : EnvironmentalData)
    (sku_list : List Sku) : ZenDecision :=
  match providerResult with
  | some d => d
  | none => fallbackDecision inventory environment sku_list

/-! ### Simulation engine (`core/simulation.py`) -/

/-- Embeds `next(s for s in self.config.sku_list if s.id == sku_id)` — `none`
models the `StopIteration` the generator raises on a miss. -/
def findSku (sku_list : List Sku) (sid : String) : Option Sku :=
  sku_list.find? (fun s => s.id == sid)

/-- Embeds `SimulationEngine._create_purchase_order`. -/
def createPurchaseOrder (cfg : SimulationConfig) (sid : String) (qty : ℤ)
    (zen_decision : ZenDecision) (timestamp : ℤ) :
    Except String PurchaseOrder :=
  match findSku cfg.sku_list sid with
  | none => .error "StopIteration"
  | some sku =>
      .ok { sku := sid, qty := qty, max_price := sku.cost * (12/10),
            requested_delivery_day := 2, urgency := zen_decision.expedite,
            timestamp := timestamp }

/-- The per-order-line loop of `_run_tick` (steps: build the purchase
order, call the quote provider, collect quotes by SKU id). The store
agent catches its own failures and falls back internally, so the quote
provider is a total oracle `quoteAt`. -/
def collectQuotesAux (cfg : SimulationConfig)
    (quoteAt : PurchaseOrder → StoreQuote) (zen_decision : ZenDecision)
    (timestamp : ℤ) :
    List (String × ℤ) → Dict StoreQuote → Except String (Dict StoreQuote)
  | [], acc => .ok acc
  | (sid, qty) :: rest, acc =>
      if qty > 0 then
        match createPurchaseOrder cfg sid qty zen_decision timestamp with
        | .error e => .error e
        | .ok po =>
            collectQuotesAux cfg quoteAt zen_decision timestamp rest
              (dset acc sid (quoteAt po))
      else collectQuotesAux cfg quoteAt zen_decision timestamp rest acc

def collectQuotes (cfg : SimulationConfig)
    (quoteAt : PurchaseOrder → StoreQuote) (zen_decision : ZenDecision)
    (timestamp : ℤ) : Except String (Dict StoreQuote) :=
  collectQuotesAux cfg quoteAt zen_decision timestamp zen_decision.order []

/-- Embeds `SimulationEngine._simulate_sales`. `draw` is the seeded numpy
Poisson sampler for this tick (`np.random.poisson(expected_demand)`). -/
def simulateSales (cfg : SimulationConfig) (prices : Dict ℚ)
    (environment : EnvironmentalData) (stock_levels : Dict ℤ)
    (draw : String → ℚ → ℕ) : Dict ℤ :=
  cfg.sku_list.foldl
    (fun sales sku =>
      if dmem prices sku.id = false ∨ dgetD stock_levels sku.id 0 ≤ 0 then
        dset sales sku.id 0
      else
        let price := dgetD prices sku.id 0
        let base_demand : ℚ := 5
        let price_factor := max (1/10) (1 - (price / sku.msrp - 1) * 2)
        let temp_factor := 1 + (1/100) * (environment.temperature_c - 20)
        let rain_factor := 1 - (1/10) * min 1 (environment.rain_mm / 10)
        let traffic_factor := min 2 ((environment.traffic_count : ℚ) / 50)
        let expected_demand := base_demand * price_factor * temp_factor *
          rain_factor * traffic_factor
        let demand := draw sku.id expected_demand
        dset sales sku.id (min (demand : ℤ) (dgetD stock_levels sku.id 0)))
    []

/-- The spoilage loop of `_update_inventory`: iterate the snapshot of
`new_stock.items()`, record each rate, and clamp each stock with
`max(0, stock - int(daily_spoilage * stock))`. -/
def spoilLoop (cfg : SimulationConfig) :
    List (String × ℤ) → Dict ℤ → Dict ℚ → Except String (Dict ℤ × Dict ℚ)
  | [], st, rates => .ok (st, rates)
  | (sid, stock) :: rest, st, rates =>
      match findSku cfg.sku_list sid with
      | none => .error "StopIteration"
      | some sku =>
          let daily_spoilage := (1/100) * (stock : ℚ) / (sku.shelf_life_days : ℚ)
          spoilLoop cfg rest
            (dset st sid (max 0 (stock - pyInt (daily_spoilage * (stock : ℚ)))))
            (dset rates sid daily_spoilage)

/-- The sales-subtraction loop of `_update_inventory`:
`new_stock[sku_id] = max(0, new_stock.get(sku_id, 0) - sold)`. -/
def subtractSales (stock : Dict ℤ) (sales : Dict ℤ) : Dict ℤ :=
  sales.foldl (fun st p => dset st p.1 (max 0 (dgetD st p.1 0 - p.2))) stock

/-- The delivery loop of `_update_inventory`: instant delivery when the
quote's delivery day is ≤ 1. -/
def addDeliveries (stock : Dict ℤ) (orders : Dict ℤ)
    (quotes : Dict StoreQuote) : Dict ℤ :=
  quotes.foldl
    (fun st p =>
      if p.2.quote_delivery_day ≤ 1 then
        dset st p.1 (dgetD st p.1 0 + dgetD orders p.1 0)
      else st)
    stock

/-- Embeds `SimulationEngine._update_inventory`. -/
def updateInventory (cfg : SimulationConfig) (prev : InventoryState)
    (sales : Dict ℤ) (orders : Dict ℤ) (quotes : Dict StoreQuote) :
    Except String InventoryState :=
  let stock2 := addDeliveries (subtractSales prev.stock_levels sales)
    orders quotes
  match spoilLoop cfg stock2 stock2 [] with
  | .error e => .error e
  | .ok (stock3, rates) =>
      let days :=
        if orders.any (fun p => p.2 != 0) then (0 : ℚ)
        else prev.days_since_restock + (cfg.tick_minutes : ℚ) / (24 * 60)
      .ok { stock_levels := stock3, days_since_restock := days,
            spoilage_rates := rates }

/-- The spoilage-cost loop of `_calculate_financials`. -/
def spoilCostLoop (cfg : SimulationConfig) (inventory : InventoryState) :
    List (String × ℚ) → ℚ → Except String ℚ
  | [], acc => .ok acc
  | (sid, rate) :: rest, acc =>
      match findSku cfg.sku_list sid with
      | none => .error "StopIteration"
      | some sku =>
          let stock := dgetD inventory.stock_levels sid 0
          spoilCostLoop cfg inventory rest (acc + rate * (stock : ℚ) * sku.cost)

/-- Embeds `SimulationEngine._calculate_financials`. Costs multiply the quote
price by the quote delivery day, exactly as the source's
`quote.quote_price * quote.quote_delivery_day` line does. -/
def calculateFinancials (cfg : SimulationConfig) (sales : Dict ℤ)
    (prices : Dict ℚ) (inventory : InventoryState)
    (quotes : Dict StoreQuote) : Except String (ℚ × ℚ × ℚ) :=
  let revenue := sales.foldl
    (fun acc p =>
      if dmem prices p.1 then acc + (p.2 : ℚ) * dgetD prices p.1 0 else acc)
    0
  let costs := quotes.foldl
    (fun acc p => acc + p.2.quote_price * (p.2.quote_delivery_day : ℚ))
    0
  match spoilCostLoop cfg inventory inventory.spoilage_rates 0 with
  | .error e => .error e
  | .ok spoilage_cost => .ok (revenue, costs, spoilage_cost)

/-- Embeds the pydantic `Field` bounds of `EnvironmentalData`
(`models.py` lines 30-44): constructing the model raises a
`ValidationError` when any numeric field is out of its hard range. -/
def validateEnvironmentalData (e : EnvironmentalData) :
    Except String EnvironmentalData :=
  if -10 ≤ e.temperature_c ∧ e.temperature_c ≤ 45 ∧
     0 ≤ e.rain_mm ∧ e.rain_mm ≤ 50 ∧
     0 ≤ e.pollen_ppm ∧ e.pollen_ppm ≤ 500 ∧
     0 ≤ e.hour ∧ e.hour ≤ 23 ∧
     0 ≤ e.weekday ∧ e.weekday ≤ 6 ∧
     0 ≤ e.traffic_count ∧ e.traffic_count ≤ 300 ∧
     0 ≤ e.dwell_sec ∧ e.dwell_sec ≤ 600 ∧
     0 ≤ e.competitor_distance_m ∧ e.competitor_distance_m ≤ 200 ∧
     1/20 ≤ e.electricity_price_kwh ∧ e.electricity_price_kwh ≤ 7/20 ∧
     50 ≤ e.card_fee_bps ∧ e.card_fee_bps ≤ 300
  then .ok e else .error "ValidationError"

/-- The deterministic random source obtained from `np.random.seed`:
per tick, the raw field values `_generate_environmental_data` computes
from its seeded draws (seasonal curves, noise, exponential and Poisson
draws — `envAt` abstracts those formulas, BEFORE pydantic range
checks), and the per-tick Poisson demand sampler. Two runs with the
same `random_seed` share the same `NpSource` by construction of the
embedding. Note the source clamps temperature, rain, pollen and
electricity price into range but leaves `dwell_sec`,
`competitor_distance_m` and `traffic_count` unclamped
(`simulation.py` lines 196, 211-212), so `envAt` may yield values the
pydantic model rejects. -/
structure NpSource where
  envAt : ℤ → EnvironmentalData
  demandDraw : ℤ → String → ℚ → ℕ

/-- Embeds `SimulationEngine._generate_environmental_data`: compute
the candidate field values from the seeded source, then construct the
pydantic `EnvironmentalData`, which validates every range and raises
on an out-of-range draw. -/
def generateEnvironmentalData (np : NpSource) (timestamp : ℤ) :
    Except String EnvironmentalData :=
  validateEnvironmentalData (np.envAt timestamp)

/-- Per-tick external inputs that are not functions of the seed: the
adversary's wall clock and unseeded draws, the decision provider's
outcome (`none` = exception), the quote provider, and the measured
decision latency. -/
structure TickOracles where
  wallTime : ℤ
  advDraws : EnvDraws
  zenResult : Option ZenDecision
  quoteAt : PurchaseOrder → StoreQuote
  latencyMs : ℚ

/-- Mutable engine fields (`self.states`, `self.ethics_ledger`,
`self.metrics`, the injected adversary). -/
structure EngineState where
  states : List SimulationState
  ethics_ledger : List EthicsLedgerEntry
  metrics : SimulationMetrics
  adv : AdvState

def defaultSimulationState : SimulationState :=
  { timestamp := 0,
    inventory := { stock_levels := [], days_since_restock := 0,
                   spoilage_rates := [] },
    environment := { timestamp := 0, temperature_c := 20, rain_mm := 0,
                     pollen_ppm := 0, hour := 0, weekday := 0,
                     holiday_flag := false, traffic_count := 0,
                     dwell_sec := 0, competitor_distance_m := 0,
                     electricity_price_kwh := 1/10, card_fee_bps := 50 },
    zen_decision := none, store_quotes := [], sales := [],
    revenue := 0, costs := 0, gross_margin := 0, spoilage_cost := 0 }

/-- Embeds `SimulationEngine._run_tick` up to the point where it either raises
(`none`; the adversary's mutations survive the abort) or produces the
tick's `SimulationState`. Environment generation is the first step of
the tick; a `ValidationError` there is caught by the run loop like any
other tick exception, before the adversary is consulted. -/
def runTickCore (cfg : SimulationConfig) (advC : AdversaryConfig)
    (np : NpSource) (o : TickOracles) (timestamp : ℤ)
    (prev : SimulationState) (adv : AdvState) :
    AdvState × Option SimulationState :=
  match generateEnvironmentalData np timestamp with
  | .error _ => (adv, none)
  | .ok environment0 =>
  let me := modifyEnvironment advC o.wallTime cfg.adversary_budget
    environment0 o.advDraws adv
  let environment := me.1
  let adv1 := me.2
  let zen_decision := makeDecision o.zenResult prev.inventory environment
    cfg.sku_list
  match collectQuotes cfg o.quoteAt zen_decision timestamp with
  | .error _ => (adv1, none)
  | .ok store_quotes =>
    let sales := simulateSales cfg zen_decision.prices environment
      prev.inventory.stock_levels (np.demandDraw timestamp)
    match updateInventory cfg prev.inventory sales zen_decision.order
        store_quotes with
    | .error _ => (adv1, none)
    | .ok new_inventory =>
      match calculateFinancials cfg sales zen_decision.prices new_inventory
          store_quotes with
      | .error _ => (adv1, none)
      | .ok (revenue, costs, spoilage_cost) =>
        let gross_margin := (revenue - costs - spoilage_cost) /
          max revenue (1/1000000)
        (adv1, some
          { timestamp := timestamp, inventory := new_inventory,
            environment := environment, zen_decision := some zen_decision,
            store_quotes := store_quotes, sales := sales,
            revenue := revenue, costs := costs,
            gross_margin := gross_margin, spoilage_cost := spoilage_cost })

/-- Metrics mutation of `_run_tick` step 9 plus the
`total_ticks`/`uptime_ticks` bumps of `run_simulation` (success path
only, exactly as in the source where a raise skips all of them). -/
def bumpMetrics (m : SimulationMetrics) (st : SimulationState)
    (latency : ℚ) : SimulationMetrics :=
  { m with total_revenue := m.total_revenue + st.revenue,
           total_costs := m.total_costs + st.costs,
           total_spoilage_cost := m.total_spoilage_cost + st.spoilage_cost,
           decision_count := m.decision_count + 1,
           total_latency_ms := m.total_latency_ms + latency,
           total_ticks := m.total_ticks + 1,
           uptime_ticks := if st.gross_margin ≥ 0 then m.uptime_ticks + 1
                           else m.uptime_ticks }

/-- One iteration of the `while` loop of `run_simulation`: run the tick
against the last appended state; on an exception keep only the
adversary's mutations, otherwise append the state, extend the run
ledger with `get_ethics_ledger()` (a copy of the adversary's full
cumulative ledger) and bump the metrics. -/
def runTickStep (cfg : SimulationConfig) (advC : AdversaryConfig)
    (np : NpSource) (o : TickOracles) (timestamp : ℤ) (es : EngineState) :
    EngineState :=
  let prev := es.states.getLastD defaultSimulationState
  match runTickCore cfg advC np o timestamp prev es.adv with
  | (adv1, none) => { es with adv := adv1 }
  | (adv1, some st) =>
      { states := es.states ++ [st],
        ethics_ledger := es.ethics_ledger ++ getEthicsLedger adv1,
        metrics := bumpMetrics es.metrics st o.latencyMs,
        adv := adv1 }

/-- The scheduled tick timestamps of `run_simulation`'s `while` loop.
For `tick_minutes ≥ 1` the loop advances by at least one minute per
iteration, so `(end_date - start_date).toNat` units of fuel reproduce
the loop exactly; a non-positive `tick_minutes` makes the source loop
forever and is outside the model. -/
def tickTimesAux (end_date tick_minutes : ℤ) : ℤ → ℕ → List ℤ
  | _, 0 => []
  | cur, Nat.succ fuel =>
      if cur < end_date then
        (cur + tick_minutes) ::
          tickTimesAux end_date tick_minutes (cur + tick_minutes) fuel
      else []

def tickTimes (cfg : SimulationConfig) : List ℤ :=
  tickTimesAux cfg.end_date cfg.tick_minutes cfg.start_date
    (cfg.end_date - cfg.start_date).toNat

/-- The tick-0 state `run_simulation` builds from `initial_inventory`
and the successfully generated (validated) tick-0 environment. -/
def initialState (cfg : SimulationConfig) (env0 : EnvironmentalData) :
    SimulationState :=
  { timestamp := cfg.start_date,
    inventory := { stock_levels := cfg.initial_inventory,
                   days_since_restock := 0,
                   spoilage_rates :=
                     cfg.sku_list.foldl (fun a sku => dset a sku.id 0) [] },
    environment := env0,
    zen_decision := none, store_quotes := [], sales := [],
    revenue := 0, costs := 0, gross_margin := 0, spoilage_cost := 0 }

def runLoop (cfg : SimulationConfig) (advC : AdversaryConfig)
    (np : NpSource) (oracle : ℤ → TickOracles) :
    List ℤ → EngineState → EngineState
  | [], es => es
  | t :: ts, es =>
      runLoop cfg advC np oracle ts (runTickStep cfg advC np (oracle t) t es)

/-- Embeds `SimulationEngine._compile_results`. -/
def compileResults (es : EngineState) : SimulationResult :=
  let m := es.metrics
  { states := es.states,
    total_revenue := m.total_revenue,
    total_costs := m.total_costs,
    gross_margin := (m.total_revenue - m.total_costs - m.total_spoilage_cost)
      / max m.total_revenue (1/1000000),
    spoilage_rate := m.total_spoilage_cost / max m.total_costs (1/1000000),
    uptime_percentage := ((m.uptime_ticks : ℚ) / max (m.total_ticks : ℚ) 1)
      * 100,
    average_latency_ms := m.total_latency_ms / max (m.decision_count : ℚ) 1,
    ethics_ledger := es.ethics_ledger }

/-- The body of `run_simulation` after the tick-0 environment has been
generated successfully: build the initial state, run the `while` loop
(whose per-tick exceptions are caught), compile the result. -/
def runSimulationFrom (cfg : SimulationConfig) (advC : AdversaryConfig)
    (np : NpSource) (oracle : ℤ → TickOracles) (adv0 : AdvState)
    (env0 : EnvironmentalData) : SimulationResult :=
  let es0 : EngineState :=
    { states := [initialState cfg env0], ethics_ledger := [],
      metrics := {}, adv := adv0 }
  compileResults (runLoop cfg advC np oracle (tickTimes cfg) es0)

/-- Embeds `SimulationEngine.run_simulation` with an injected adversary state
`adv0` (the engine receives a constructed `AdversaryModule`). The
tick-0 `_generate_environmental_data` call (`simulation.py` line 82)
sits OUTSIDE the loop's `try/except`, so a `ValidationError` there
propagates: the run aborts with no `SimulationResult`. -/
def runSimulation (cfg : SimulationConfig) (advC : AdversaryConfig)
    (np : NpSource) (oracle : ℤ → TickOracles) (adv0 : AdvState) :
    Except String SimulationResult :=
  match generateEnvironmentalData np cfg.start_date with
  | .error e => .error e
  | .ok env0 => .ok (runSimulationFrom cfg advC np oracle adv0 env0)

/-- Reference tick sequence written from the spec's failure policy: an
erroring tick contributes no state and the loop continues at the next
scheduled time against the same previous state; a successful tick
contributes its state, which becomes the next tick's previous state. -/
def specStateSequence (cfg : SimulationConfig) (advC : AdversaryConfig)
    (np : NpSource) (oracle : ℤ → TickOracles) :
    List ℤ → SimulationState → AdvState → List SimulationState
  | [], _, _ => []
  | t :: ts, prev, adv =>
      match runTickCore cfg advC np (oracle t) t prev adv with
      | (adv1, none) => specStateSequence cfg advC np oracle ts prev adv1
      | (adv1, some st) =>
          st :: specStateSequence cfg advC np oracle ts st adv1

/-! ### Concrete fixtures -/

/-- The water SKU of the spec's scenarios. -/
def waterSku : Sku :=
  { id := "water", name := "Water", msrp := 3/2, cost := 1/2,
    shelf_life_days := 365, category := "beverage" }

/-- A fixed in-range environment. -/
def baseEnv : EnvironmentalData :=
  { timestamp := 0, temperature_c := 20, rain_mm := 0, pollen_ppm := 100,
    hour := 12, weekday := 2, holiday_flag := false, traffic_count := 50,
    dwell_sec := 120, competitor_distance_m := 50,
    electricity_price_kwh := 15/100, card_fee_bps := 100 }

/-- Draws under which every perturbation gate misses (all rolls 0.9). -/
def quietDraws : EnvDraws :=
  { tempRoll := 9/10, tempDelta := 0, rainRoll := 9/10, rainDelta := 0,
    trafficRoll := 9/10, trafficDelta := 0 }

/-- A message with no tamperable fields. -/
def emptyMsg : Msg :=
  { prices := none, order := none, quote_delivery_day := none,
    quote_price := none }

/-- Fixed tamper draws (content irrelevant to the gating claims). -/
def idleTamperDraws : TamperDraws :=
  { roll1 := 1, roll2 := 1, priceDelta := fun _ => 0, qtyDelta := fun _ => 0,
    etaDelta := 0, priceInc := 0 }

/-- A `message_tamper_zen_decision` ledger entry at wall time `t`. -/
def tamperLedgerEntry (t : ℤ) : EthicsLedgerEntry :=
  { timestamp := t, agent := "adversary",
    action_type := "message_tamper_zen_decision",
    deception_bits := 1/10,
    description := "Tampered with zen_decision message",
    detected := false }

/-- A `latency_spike` ledger entry at wall time `t`. -/
def spikeLedgerEntry (t : ℤ) : EthicsLedgerEntry :=
  { timestamp := t, agent := "adversary", action_type := "latency_spike",
    deception_bits := 1/10, description := "Created latency spike",
    detected := false }

/-- An `environmental_modification` ledger entry at wall time `t`
charging `bits`. -/
def envModLedgerEntry (t : ℤ) (bits : ℚ) : EthicsLedgerEntry :=
  { timestamp := t, agent := "adversary",
    action_type := "environmental_modification", deception_bits := bits,
    description := "Modified environment", detected := false }

/-- Draws making the temperature and rain gates fire (two changes,
0.2 bit) and the traffic gate miss. -/
def c1Draws : EnvDraws :=
  { tempRoll := 1/10, tempDelta := 1/10, rainRoll := 1/10, rainDelta := 1/2,
    trafficRoll := 9/10, trafficDelta := 0 }

/-- Adversary state after one `modify_environment` that charged
0.2 bit on the current day. -/
def c1AfterModify : AdvState :=
  (modifyEnvironment defaultAdversaryConfig 1000 (1/4) baseEnv c1Draws
    (AdvState.init 0)).2

/-- State after a first tamper applied at wall time 7200 s. -/
def c7AfterFirst : AdvState :=
  (tamperMessage defaultAdversaryConfig 7200 emptyMsg "zen_decision"
    idleTamperDraws (AdvState.init 0)).2.2

/-- Day-0 trace fully consuming (indeed overrunning) the 0.25 budget:
two tampers (0.2) and one latency spike (0.3 total). -/
def c6AfterDay0 : AdvState :=
  (createLatencySpike defaultAdversaryConfig 14400
    (tamperMessage defaultAdversaryConfig 10800 emptyMsg "zen_decision"
      idleTamperDraws
      (tamperMessage defaultAdversaryConfig 7200 emptyMsg "zen_decision"
        idleTamperDraws (AdvState.init 0)).2.2).2.2).2

/-- A fixed quote: unit price 2, delivery in 3 days. -/
def dummyQuote : StoreQuote :=
  { quote_price := 2, quote_delivery_day := 3, tracking_code := "T",
    confidence := 7/10, reason := "standard" }

/-- A deterministic seeded source: constant environment, and a Poisson
sampler returning 4 below rate 5 and otherwise 5 (one concrete
rate-sensitive sampler the seeded generator may realize). -/
def flatNp : NpSource :=
  { envAt := fun _ => baseEnv,
    demandDraw := fun _ _ r => if r < 5 then 4 else 5 }

/-- A provider decision holding price at MSRP and ordering nothing. -/
def holdDecision : ZenDecision :=
  { prices := [("water", 3/2)], order := [], expedite := false,
    thought := "hold" }

/-- One-tick configuration: one SKU, stock 10, seed 12345. -/
def c2Cfg : SimulationConfig :=
  { start_date := 0, end_date := 60, tick_minutes := 60,
    random_seed := some 12345, sku_list := [waterSku],
    initial_inventory := [("water", 10)], adversary_budget := 1/4,
    latency_budget_ms := 200, margin_target := 18/100,
    spoilage_limit := 1/125 }

/-- Draws making only the rain gate fire (+1 mm). -/
def rainDraws : EnvDraws :=
  { tempRoll := 9/10, tempDelta := 0, rainRoll := 1/10, rainDelta := 1,
    trafficRoll := 9/10, trafficDelta := 0 }

/-- Run A oracle: the adversary's unseeded draws perturb rain. -/
def c2OracleA : ℤ → TickOracles := fun _ =>
  { wallTime := 0, advDraws := rainDraws, zenResult := some holdDecision,
    quoteAt := fun _ => dummyQuote, latencyMs := 0 }

/-- Run B oracle: identical except the adversary's unseeded draws miss
every gate. -/
def c2OracleB : ℤ → TickOracles := fun _ =>
  { wallTime := 0, advDraws := quietDraws, zenResult := some holdDecision,
    quoteAt := fun _ => dummyQuote, latencyMs := 0 }

/-- Two-tick configuration for the ledger-drain claim. -/
def c8Cfg : SimulationConfig :=
  { start_date := 0, end_date := 120, tick_minutes := 60,
    random_seed := some 7, sku_list := [waterSku],
    initial_inventory := [("water", 10)], adversary_budget := 1/4,
    latency_budget_ms := 200, margin_target := 18/100,
    spoilage_limit := 1/125 }

/-- Draws making only the temperature gate fire. -/
def tempDraws : EnvDraws :=
  { tempRoll := 1/10, tempDelta := 1/10, rainRoll := 9/10, rainDelta := 0,
    trafficRoll := 9/10, trafficDelta := 0 }

/-- Oracle for the two-tick run: the adversary perturbs (and logs one
entry) during the first tick only. -/
def c8Oracle : ℤ → TickOracles := fun t =>
  { wallTime := t, advDraws := if t = 60 then tempDraws else quietDraws,
    zenResult := some holdDecision, quoteAt := fun _ => dummyQuote,
    latencyMs := 0 }

/-- The engine state at the end of the two-tick run. -/
def c8Run : EngineState :=
  runLoop c8Cfg defaultAdversaryConfig flatNp c8Oracle (tickTimes c8Cfg)
    { states := [initialState c8Cfg baseEnv], ethics_ledger := [],
      metrics := {}, adv := AdvState.init 0 }

/-- Engine state before the two-tick run. -/
def c8Es0 : EngineState :=
  { states := [initialState c8Cfg baseEnv], ethics_ledger := [],
    metrics := {}, adv := AdvState.init 0 }

/-- Adversary state after the single tick-1 temperature change. -/
def c8Adv1 : AdvState :=
  { ethics_ledger := [envModLedgerEntry 60 (1/10)],
    daily_deception_bits := 1/10, last_reset := 0, message_count := 0,
    environmental_changes := 1, tamper_count := 0, last_tamper_time := 0 }

/-- Tick-1 environment: temperature perturbed by +0.1 °C. -/
def c8Env1 : EnvironmentalData := { baseEnv with temperature_c := 201/10 }

/-- State appended by tick 1 of the two-tick run. -/
def c8State1 : SimulationState :=
  { timestamp := 60,
    inventory := { stock_levels := [("water", 5)],
                   days_since_restock := 1/24,
                   spoilage_rates := [("water", 1/7300)] },
    environment := c8Env1, zen_decision := some holdDecision,
    store_quotes := [], sales := [("water", 5)], revenue := 15/2,
    costs := 0, gross_margin := 21899/21900, spoilage_cost := 1/2920 }

/-- State appended by tick 2 of the two-tick run. -/
def c8State2 : SimulationState :=
  { timestamp := 120,
    inventory := { stock_levels := [("water", 0)],
                   days_since_restock := 1/12,
                   spoilage_rates := [("water", 0)] },
    environment := baseEnv, zen_decision := some holdDecision,
    store_quotes := [], sales := [("water", 5)], revenue := 15/2,
    costs := 0, gross_margin := 1, spoilage_cost := 0 }

/-- Engine state after tick 1. -/
def c8Es1 : EngineState :=
  { states := [initialState c8Cfg baseEnv, c8State1],
    ethics_ledger := [envModLedgerEntry 60 (1/10)],
    metrics := { total_revenue := 15/2, total_costs := 0,
                 total_spoilage_cost := 1/2920, decision_count := 1,
                 total_latency_ms := 0, uptime_ticks := 1,
                 total_ticks := 1 },
    adv := c8Adv1 }

/-- Engine state after tick 2: the tick-1 ledger entry re-appended. -/
def c8Es2 : EngineState :=
  { states := [initialState c8Cfg baseEnv, c8State1, c8State2],
    ethics_ledger := [envModLedgerEntry 60 (1/10),
      envModLedgerEntry 60 (1/10)],
    metrics := { total_revenue := 15, total_costs := 0,
                 total_spoilage_cost := 1/2920, decision_count := 2,
                 total_latency_ms := 0, uptime_ticks := 2,
                 total_ticks := 2 },
    adv := c8Adv1 }

/-- The spec's water scenario configuration: stock 2, one tick. -/
def c10Cfg : SimulationConfig :=
  { start_date := 0, end_date := 60, tick_minutes := 60,
    random_seed := some 42, sku_list := [waterSku],
    initial_inventory := [("water", 2)], adversary_budget := 1/4,
    latency_budget_ms := 200, margin_target := 18/100,
    spoilage_limit := 1/125 }

/-- Seeded source whose Poisson draw is the fixed value `d`. -/
def c10Np (d : ℕ) : NpSource :=
  { envAt := fun _ => baseEnv, demandDraw := fun _ _ _ => d }

/-- The scenario decision: price = 1.50, order water: 0. -/
def c10Decision : ZenDecision :=
  { prices := [("water", 3/2)], order := [("water", 0)],
    expedite := false, thought := "scenario" }

def c10Oracle : ℤ → TickOracles := fun _ =>
  { wallTime := 0, advDraws := quietDraws, zenResult := some c10Decision,
    quoteAt := fun _ => dummyQuote, latencyMs := 0 }

/-- A decision ordering 5 units of water. -/
def c4Decision : ZenDecision :=
  { prices := [("water", 3/2)], order := [("water", 5)],
    expedite := false, thought := "restock" }

def c4Oracle : ℤ → TickOracles := fun _ =>
  { wallTime := 0, advDraws := quietDraws, zenResult := some c4Decision,
    quoteAt := fun _ => dummyQuote, latencyMs := 0 }

/-- Inventory with 2 units of water (fallback premium-price band). -/
def c9InvLow : InventoryState :=
  { stock_levels := [("water", 2)], days_since_restock := 0,
    spoilage_rates := [] }

/-- Inventory with 12 units of water (no-reorder band: 10 ≤ stock). -/
def c9InvMid : InventoryState :=
  { stock_levels := [("water", 12)], days_since_restock := 0,
    spoilage_rates := [] }

/-- The 1-tick run with an order of 5 units quoted at price 2,
delivery day 3 (tick-0 generation succeeds with `baseEnv`). -/
def c4Run : SimulationResult :=
  runSimulationFrom c2Cfg defaultAdversaryConfig flatNp c4Oracle
    (AdvState.init 0) baseEnv

/-- A seeded source one of whose exponential draws went long: the
tick-0 `dwell_sec = np.random.exponential(120)` came out at 700 s
(probability about `e^{-5}` per draw), above the pydantic bound
`le=600`, while every other field is in range. -/
def invalidNp : NpSource :=
  { envAt := fun _ => { baseEnv with dwell_sec := 700 },
    demandDraw := fun _ _ r => if r < 5 then 4 else 5 }

/-- Oracle whose decision provider raises on every tick. -/
def c9Oracle : ℤ → TickOracles := fun _ =>
  { wallTime := 0, advDraws := quietDraws, zenResult := none,
    quoteAt := fun _ => dummyQuote, latencyMs := 0 }

/-- Engine state at the start of the provider-failure run. -/
def c9Es : EngineState :=
  { states := [initialState c10Cfg baseEnv], ethics_ledger := [],
    metrics := {}, adv := AdvState.init 0 }

/-- The single tick of the provider-failure run. -/
def c9Tick : AdvState × Option SimulationState :=
  runTickCore c10Cfg defaultAdversaryConfig (c10Np 1) (c9Oracle 60) 60
    (c9Es.states.getLastD defaultSimulationState) c9Es.adv

/-- The one-tick scenario run with Poisson draw `d` (tick-0 generation
succeeds with `baseEnv`). -/
def c10Run (d : ℕ) : SimulationResult :=
  runSimulationFrom c10Cfg defaultAdversaryConfig (c10Np d) c10Oracle
    (AdvState.init 0) baseEnv

/-- The state appended by the scenario's single tick. -/
def c10Last (d : ℕ) : SimulationState :=
  (c10Run d).states.getLastD defaultSimulationState

/-! ### Dictionary lemmas -/

theorem dget?_dset_self {α : Type} (d : Dict α) (k : String) (v : α) :
    dget? (dset d k v) k = some v := by
  induction d with
  | nil => simp [dset, dget?]
  | cons p rest ih =>
      by_cases h : p.1 = k
      · simp [dset, dget?, h]
      · simp [dset, dget?, h, ih]

theorem dget?_dset_ne {α : Type} (d : Dict α) (k k' : String) (v : α)
    (h : k ≠ k') : dget? (dset d k v) k' = dget? d k' := by
  induction d with
  | nil => simp [dset, dget?, h]
  | cons p rest ih =>
      by_cases hp : p.1 = k
      · simp [dset, dget?, hp, h]
      · by_cases hp' : p.1 = k'
        · simp [dset, dget?, hp, hp', Ne.symm h]
        · simp [dset, dget?, hp, hp', ih]

theorem dgetD_dset_self {α : Type} (d : Dict α) (k : String) (v dflt : α) :
    dgetD (dset d k v) k dflt = v := by
  simp [dgetD, dget?_dset_self]

theorem dget?_some_mem {α : Type} (d : Dict α) (k : String) (v : α)
    (h : dget? d k = some v) : k ∈ d.map Prod.fst := by
  induction d with
  | nil => simp [dget?] at h
  | cons p rest ih =>
      by_cases hp : p.1 = k
      · simp [hp]
      · simp [dget?, hp] at h
        simp [ih h]

theorem getLastD_concat {α : Type} (l : List α) (a d : α) :
    (l ++ [a]).getLastD d = a := by
  induction l with
  | nil => rfl
  | cons x xs ih =>
      cases xs with
      | nil => rfl
      | cons y ys => simpa using ih

/-! ### C1 -/

lemma c1AfterModify_eq :
    c1AfterModify =
      { ethics_ledger := [envModLedgerEntry 1000 (1/5)],
        daily_deception_bits := 1/5, last_reset := 0, message_count := 0,
        environmental_changes := 2, tamper_count := 0,
        last_tamper_time := 0 } := by
  norm_num [c1AfterModify, c1Draws, baseEnv, modifyEnvironment,
    applyEnvironmentalChanges, resetDailyBudget, logEthicsEntry,
    AdvState.init, defaultAdversaryConfig, utcDate, Int.fdiv,
    envModLedgerEntry]

/-- Claim C1: `daily_deception_bits` never exceeds the configured
budget after any single operation; with 0.2 bit used of a 0.25 budget,
a 0.1-bit attempt is declined. Refuted by the code:
`create_latency_spike` only checks `used ≥ budget`, so from 0.2/0.25 it
is applied, appends a ledger entry, and leaves 0.3 bits used — above
the budget. -/
theorem C1_latency_spike_exceeds_budget :
    c1AfterModify.daily_deception_bits = 2/10 ∧
    (createLatencySpike defaultAdversaryConfig 2000 c1AfterModify).1 = true ∧
    (createLatencySpike defaultAdversaryConfig 2000
      c1AfterModify).2.daily_deception_bits = 3/10 ∧
    (createLatencySpike defaultAdversaryConfig 2000
        c1AfterModify).2.daily_deception_bits >
      defaultAdversaryConfig.deception_budget ∧
    (createLatencySpike defaultAdversaryConfig 2000
        c1AfterModify).2.ethics_ledger.length =
      c1AfterModify.ethics_ledger.length + 1 := by
  rw [c1AfterModify_eq]
  norm_num [createLatencySpike, logEthicsEntry, defaultAdversaryConfig]

/-! ### C7 -/

lemma c7AfterFirst_eq :
    c7AfterFirst =
      { ethics_ledger := [tamperLedgerEntry 7200],
        daily_deception_bits := 1/10, last_reset := 0, message_count := 0,
        environmental_changes := 0, tamper_count := 1,
        last_tamper_time := 0 } := by
  norm_num [c7AfterFirst, tamperMessage, canTamperMessage,
    calculateMessageTamperBits, applyMessageTampering, logEthicsEntry,
    emptyMsg, idleTamperDraws, AdvState.init, defaultAdversaryConfig,
    tamperLedgerEntry]
  decide

/-- Claim C7: at most one applied tamper per rolling 1-hour window.
Refuted by the code: `tamper_message` never updates
`last_tamper_time`, so a second call 60 seconds after an applied
tamper passes the `> 3600 s since last_tamper_time` gate again and is
applied as well. -/
theorem C7_two_tampers_within_one_hour :
    (tamperMessage defaultAdversaryConfig 7200 emptyMsg "zen_decision"
      idleTamperDraws (AdvState.init 0)).2.1 = true ∧
    (tamperMessage defaultAdversaryConfig 7260 emptyMsg "zen_decision"
      idleTamperDraws c7AfterFirst).2.1 = true ∧
    (7260 : ℤ) - 7200 < 3600 ∧
    c7AfterFirst.last_tamper_time = (AdvState.init 0).last_tamper_time := by
  refine ⟨?_, ?_, by norm_num, ?_⟩
  · norm_num [tamperMessage, canTamperMessage, calculateMessageTamperBits,
      AdvState.init, defaultAdversaryConfig]
  · rw [c7AfterFirst_eq]
    norm_num [tamperMessage, canTamperMessage, calculateMessageTamperBits,
      defaultAdversaryConfig]
  · rw [c7AfterFirst_eq]
    norm_num [AdvState.init]

/-! ### C6 -/

lemma c6AfterDay0_eq :
    c6AfterDay0 =
      { ethics_ledger := [tamperLedgerEntry 7200, tamperLedgerEntry 10800,
          spikeLedgerEntry 14400],
        daily_deception_bits := 3/10, last_reset := 0, message_count := 0,
        environmental_changes := 0, tamper_count := 2,
        last_tamper_time := 0 } := by
  norm_num [c6AfterDay0, tamperMessage, canTamperMessage,
    calculateMessageTamperBits, applyMessageTampering, logEthicsEntry,
    createLatencySpike, emptyMsg, idleTamperDraws, AdvState.init,
    defaultAdversaryConfig, tamperLedgerEntry, spikeLedgerEntry]
  decide

/-- Claim C6 counterexample: on the next UTC day (wall time 90000 s,
day 1), a `tamper_message` and a `create_latency_spike` are both still
declined for lack of budget — neither calls `_reset_daily_budget`, so
the previous day's consumption is still charged. -/
theorem C6_counterexample_no_reset_in_tamper :
    utcDate 90000 > utcDate c6AfterDay0.last_reset ∧
    c6AfterDay0.daily_deception_bits = 3/10 ∧
    (tamperMessage defaultAdversaryConfig 90000 emptyMsg "zen_decision"
      idleTamperDraws c6AfterDay0).2.1 = false ∧
    (tamperMessage defaultAdversaryConfig 90000 emptyMsg "zen_decision"
        idleTamperDraws c6AfterDay0).2.2.daily_deception_bits = 3/10 ∧
    (createLatencySpike defaultAdversaryConfig 90000 c6AfterDay0).1 =
      false := by
  rw [c6AfterDay0_eq]
  refine ⟨by decide, by norm_num, ?_, ?_, ?_⟩ <;>
    norm_num [tamperMessage, canTamperMessage, calculateMessageTamperBits,
      createLatencySpike, defaultAdversaryConfig]

/-- Claim C6 as amended: only `modify_environment` performs the lazy
daily reset. When its wall-clock date is past `last_reset`'s date and
the budget is positive, it zeroes `daily_deception_bits` before the
budget gate and proceeds with the full budget available — so it is
never declined for lack of budget right after a UTC rollover. -/
theorem C6_amended_modify_environment_resets
    (C : AdversaryConfig) (now : ℤ) (budget : ℚ)
    (env : EnvironmentalData) (d : EnvDraws) (s : AdvState)
    (hroll : utcDate now > utcDate s.last_reset)
    (hpos : 0 < C.deception_budget) :
    (resetDailyBudget now s).daily_deception_bits = 0 ∧
    modifyEnvironment C now budget env d s =
      applyEnvironmentalChanges now env C.deception_budget d
        (resetDailyBudget now s) := by
  have hr : resetDailyBudget now s =
      { s with daily_deception_bits := 0, last_reset := now,
               environmental_changes := 0, tamper_count := 0 } := by
    simp only [resetDailyBudget, if_pos hroll]
  constructor
  · rw [hr]
  · simp only [modifyEnvironment, hr]
    simp [hpos.not_le]

/-- Witness for the amended C6 theorem at concrete inputs. -/
theorem C6_amended_witness :
    (utcDate 90000 > utcDate (AdvState.init 0).last_reset ∧
      0 < defaultAdversaryConfig.deception_budget) ∧
    ((resetDailyBudget 90000 (AdvState.init 0)).daily_deception_bits = 0 ∧
      modifyEnvironment defaultAdversaryConfig 90000 (1/4) baseEnv quietDraws
          (AdvState.init 0) =
        applyEnvironmentalChanges 90000 baseEnv
          defaultAdversaryConfig.deception_budget quietDraws
          (resetDailyBudget 90000 (AdvState.init 0))) :=
  ⟨⟨by decide, by norm_num [defaultAdversaryConfig]⟩,
    C6_amended_modify_environment_resets defaultAdversaryConfig 90000 (1/4)
      baseEnv quietDraws (AdvState.init 0) (by decide)
      (by norm_num [defaultAdversaryConfig])⟩

/-! ### Engine loop lemmas -/

lemma runLoop_nil (cfg : SimulationConfig) (advC : AdversaryConfig)
    (np : NpSource) (oracle : ℤ → TickOracles) (es : EngineState) :
    runLoop cfg advC np oracle [] es = es := rfl

lemma runLoop_cons (cfg : SimulationConfig) (advC : AdversaryConfig)
    (np : NpSource) (oracle : ℤ → TickOracles) (t : ℤ) (ts : List ℤ)
    (es : EngineState) :
    runLoop cfg advC np oracle (t :: ts) es =
      runLoop cfg advC np oracle ts
        (runTickStep cfg advC np (oracle t) t es) := rfl

lemma runTickStep_none (cfg : SimulationConfig) (advC : AdversaryConfig)
    (np : NpSource) (o : TickOracles) (t : ℤ) (es : EngineState)
    (adv1 : AdvState)
    (h : runTickCore cfg advC np o t
      (es.states.getLastD defaultSimulationState) es.adv = (adv1, none)) :
    runTickStep cfg advC np o t es = { es with adv := adv1 } := by
  simp only [runTickStep]
  rw [h]

lemma runTickStep_some (cfg : SimulationConfig) (advC : AdversaryConfig)
    (np : NpSource) (o : TickOracles) (t : ℤ) (es : EngineState)
    (adv1 : AdvState) (st : SimulationState)
    (h : runTickCore cfg advC np o t
      (es.states.getLastD defaultSimulationState) es.adv = (adv1, some st)) :
    runTickStep cfg advC np o t es =
      { states := es.states ++ [st],
        ethics_ledger := es.ethics_ledger ++ getEthicsLedger adv1,
        metrics := bumpMetrics es.metrics st o.latencyMs,
        adv := adv1 } := by
  simp only [runTickStep]
  rw [h]

lemma specStateSequence_cons_none (cfg : SimulationConfig)
    (advC : AdversaryConfig) (np : NpSource) (oracle : ℤ → TickOracles)
    (t : ℤ) (ts : List ℤ) (prev : SimulationState) (adv adv1 : AdvState)
    (h : runTickCore cfg advC np (oracle t) t prev adv = (adv1, none)) :
    specStateSequence cfg advC np oracle (t :: ts) prev adv =
      specStateSequence cfg advC np oracle ts prev adv1 := by
  simp [specStateSequence, h]

lemma specStateSequence_cons_some (cfg : SimulationConfig)
    (advC : AdversaryConfig) (np : NpSource) (oracle : ℤ → TickOracles)
    (t : ℤ) (ts : List ℤ) (prev : SimulationState) (adv adv1 : AdvState)
    (st : SimulationState)
    (h : runTickCore cfg advC np (oracle t) t prev adv = (adv1, some st)) :
    specStateSequence cfg advC np oracle (t :: ts) prev adv =
      st :: specStateSequence cfg advC np oracle ts st adv1 := by
  simp [specStateSequence, h]

/-- The accumulated `self.states` of the while loop equal the initial
prefix plus the reference sequence of the spec's failure policy. -/
lemma runLoop_states_eq (cfg : SimulationConfig) (advC : AdversaryConfig)
    (np : NpSource) (oracle : ℤ → TickOracles) :
    ∀ (ts : List ℤ) (es : EngineState),
      (runLoop cfg advC np oracle ts es).states =
        es.states ++ specStateSequence cfg advC np oracle ts
          (es.states.getLastD defaultSimulationState) es.adv := by
  intro ts
  induction ts with
  | nil => intro es; simp [runLoop_nil, specStateSequence]
  | cons t ts ih =>
      intro es
      rw [runLoop_cons]
      rcases hc : runTickCore cfg advC np (oracle t) t
          (es.states.getLastD defaultSimulationState) es.adv with ⟨adv1, ost⟩
      cases ost with
      | none =>
          rw [runTickStep_none cfg advC np (oracle t) t es adv1 hc, ih,
            specStateSequence_cons_none cfg advC np oracle t ts _ _ _ hc]
      | some st =>
          rw [runTickStep_some cfg advC np (oracle t) t es adv1 st hc, ih,
            specStateSequence_cons_some cfg advC np oracle t ts _ _ _ _ hc]
          simp [getLastD_concat]

/-- The state sequence of a run whose tick-0 generation succeeded. -/
lemma runSimulationFrom_states_eq (cfg : SimulationConfig)
    (advC : AdversaryConfig) (np : NpSource) (oracle : ℤ → TickOracles)
    (adv0 : AdvState) (env0 : EnvironmentalData) :
    (runSimulationFrom cfg advC np oracle adv0 env0).states =
      initialState cfg env0 ::
        specStateSequence cfg advC np oracle (tickTimes cfg)
          (initialState cfg env0) adv0 := by
  show (runLoop cfg advC np oracle (tickTimes cfg)
      { states := [initialState cfg env0], ethics_ledger := [],
        metrics := {}, adv := adv0 }).states = _
  rw [runLoop_states_eq]
  simp [List.getLastD]

/-- A run whose tick-0 generation validates produces a result. -/
lemma runSimulation_ok (cfg : SimulationConfig) (advC : AdversaryConfig)
    (np : NpSource) (oracle : ℤ → TickOracles) (adv0 : AdvState)
    (env0 : EnvironmentalData)
    (hgen : generateEnvironmentalData np cfg.start_date = .ok env0) :
    runSimulation cfg advC np oracle adv0 =
      .ok (runSimulationFrom cfg advC np oracle adv0 env0) := by
  simp only [runSimulation]
  rw [hgen]

/-- Claim C3 counterexample: the run can abort fatally on a perfectly
valid configuration (positive tick length, nonempty catalog,
nonnegative initial stock). The tick-0 `_generate_environmental_data`
call sits outside the `try/except`, and the source draws
`dwell_sec = np.random.exponential(120)` unclamped while the pydantic
model requires `dwell_sec ≤ 600`; a 700 s draw makes construction
raise, so `run_simulation` propagates the error and returns no
`SimulationResult` — invalid configuration is NOT the only fatal
condition. -/
theorem C3_counterexample_fatal_validation_error :
    c2Cfg.tick_minutes = 60 ∧
    c2Cfg.sku_list ≠ [] ∧
    (∀ k, 0 ≤ dgetD c2Cfg.initial_inventory k 0) ∧
    (invalidNp.envAt c2Cfg.start_date).dwell_sec = 700 ∧
    ¬ ((invalidNp.envAt c2Cfg.start_date).dwell_sec ≤ 600) ∧
    runSimulation c2Cfg defaultAdversaryConfig invalidNp c2OracleB
      (AdvState.init 0) = .error "ValidationError" := by
  refine ⟨rfl, by simp [c2Cfg], fun k => ?_, rfl, by norm_num [invalidNp, baseEnv], ?_⟩
  · by_cases h : ("water" : String) = k <;> simp [c2Cfg, dgetD, dget?, h]
  · norm_num [runSimulation, generateEnvironmentalData,
      validateEnvironmentalData, invalidNp, baseEnv, c2Cfg]

/-- Claim C3 as amended: every exception raised while executing a tick
is caught by the scheduler's `try/except` — the failing tick appends no
state, the loop continues at the next scheduled time against the
unchanged previous state (the reference sequence `specStateSequence`
skips erroring ticks and continues by construction) — and, PROVIDED
the tick-0 environment generation validates, the run returns a
`SimulationResult` whose states are the initial state followed by
exactly the successful ticks' states. Tick-0 generation is outside the
`try/except`, so a pydantic `ValidationError` there is a second fatal
condition beside invalid configuration. -/
theorem C3_amended_tick_exceptions_skipped (cfg : SimulationConfig)
    (advC : AdversaryConfig) (np : NpSource) (oracle : ℤ → TickOracles)
    (adv0 : AdvState) (env0 : EnvironmentalData)
    (hgen : generateEnvironmentalData np cfg.start_date = .ok env0) :
    runSimulation cfg advC np oracle adv0 =
      .ok (runSimulationFrom cfg advC np oracle adv0 env0) ∧
    (runSimulationFrom cfg advC np oracle adv0 env0).states =
      initialState cfg env0 ::
        specStateSequence cfg advC np oracle (tickTimes cfg)
          (initialState cfg env0) adv0 :=
  ⟨runSimulation_ok cfg advC np oracle adv0 env0 hgen,
    runSimulationFrom_states_eq cfg advC np oracle adv0 env0⟩

/-- Witness for the amended C3 theorem on a concrete run. -/
theorem C3_amended_witness :
    (generateEnvironmentalData flatNp c2Cfg.start_date = .ok baseEnv) ∧
    (runSimulation c2Cfg defaultAdversaryConfig flatNp c2OracleB
        (AdvState.init 0) =
      .ok (runSimulationFrom c2Cfg defaultAdversaryConfig flatNp
        c2OracleB (AdvState.init 0) baseEnv) ∧
      (runSimulationFrom c2Cfg defaultAdversaryConfig flatNp c2OracleB
          (AdvState.init 0) baseEnv).states =
        initialState c2Cfg baseEnv ::
          specStateSequence c2Cfg defaultAdversaryConfig flatNp c2OracleB
            (tickTimes c2Cfg) (initialState c2Cfg baseEnv)
            (AdvState.init 0)) := by
  have hgen : generateEnvironmentalData flatNp c2Cfg.start_date =
      .ok baseEnv := by
    norm_num [generateEnvironmentalData, validateEnvironmentalData,
      flatNp, baseEnv, c2Cfg]
  exact ⟨hgen, C3_amended_tick_exceptions_skipped c2Cfg
    defaultAdversaryConfig flatNp c2OracleB (AdvState.init 0) baseEnv
    hgen⟩

/-! ### C2 -/

/-- Claim C2: identical configuration and seed give identical per-tick
revenue/costs/margin sequences. Refuted by the code: the engine seeds
only numpy, while `_apply_environmental_changes` draws from the
unseeded `random` module. Here two runs share the configuration
(hence the seed) and the seeded source `flatNp`, differ only in the
adversary's unseeded draws, and produce different revenue sequences. -/
theorem C2_same_seed_different_revenue :
    (runSimulation c2Cfg defaultAdversaryConfig flatNp c2OracleA
        (AdvState.init 0)).map
      (fun r => r.states.map SimulationState.revenue) = .ok [0, 6] ∧
    (runSimulation c2Cfg defaultAdversaryConfig flatNp c2OracleB
        (AdvState.init 0)).map
      (fun r => r.states.map SimulationState.revenue) = .ok [0, 15/2] ∧
    ([0, 6] : List ℚ) ≠ [0, 15/2] := by
  have ht : tickTimes c2Cfg = [60] := by rfl
  refine ⟨?_, ?_, by norm_num⟩ <;>
    norm_num [runSimulation, runSimulationFrom, generateEnvironmentalData,
      validateEnvironmentalData, Except.map, compileResults, runLoop, ht,
      runTickStep,
      runTickCore, initialState, modifyEnvironment, resetDailyBudget,
      applyEnvironmentalChanges, logEthicsEntry, makeDecision,
      collectQuotes, collectQuotesAux, createPurchaseOrder, findSku,
      simulateSales, subtractSales, addDeliveries, updateInventory,
      spoilLoop, spoilCostLoop, calculateFinancials, bumpMetrics,
      getEthicsLedger, dset, dget?, dgetD, dmem, pyInt, utcDate, c2Cfg,
      c2OracleA, c2OracleB, rainDraws, flatNp, holdDecision, quietDraws,
      baseEnv, waterSku, dummyQuote, AdvState.init, defaultAdversaryConfig,
      defaultSimulationState, List.getLastD, Option.isSome, Option.getD]

/-! ### C8 -/

set_option maxHeartbeats 1000000 in
lemma c8Step1 :
    runTickStep c8Cfg defaultAdversaryConfig flatNp (c8Oracle 60) 60
      c8Es0 = c8Es1 := by
  have hu1 : utcDate 60 = 0 := by decide
  have hu0 : utcDate 0 = 0 := by decide
  norm_num [hu1, hu0, c8Es0, c8Es1, c8Adv1, c8Env1, c8State1, runTickStep,
    runTickCore, generateEnvironmentalData, validateEnvironmentalData,
    initialState, modifyEnvironment, resetDailyBudget,
    applyEnvironmentalChanges, logEthicsEntry, makeDecision,
    collectQuotes, collectQuotesAux, createPurchaseOrder, findSku,
    simulateSales, subtractSales, addDeliveries, updateInventory,
    spoilLoop, spoilCostLoop, calculateFinancials, bumpMetrics,
    getEthicsLedger, dset, dget?, dgetD, dmem, pyInt, c8Cfg,
    c8Oracle, tempDraws, flatNp, holdDecision, quietDraws, baseEnv,
    waterSku, dummyQuote, AdvState.init, defaultAdversaryConfig,
    defaultSimulationState, List.getLastD, Option.isSome, Option.getD,
    envModLedgerEntry]

set_option maxHeartbeats 1000000 in
lemma c8Step2 :
    runTickStep c8Cfg defaultAdversaryConfig flatNp (c8Oracle 120) 120
      c8Es1 = c8Es2 := by
  have hu1 : utcDate 120 = 0 := by decide
  have hu0 : utcDate 0 = 0 := by decide
  norm_num [hu1, hu0, c8Es1, c8Es2, c8Adv1, c8Env1, c8State1, c8State2,
    runTickStep, runTickCore, generateEnvironmentalData,
    validateEnvironmentalData, initialState, modifyEnvironment,
    resetDailyBudget, applyEnvironmentalChanges, logEthicsEntry,
    makeDecision, collectQuotes, collectQuotesAux, createPurchaseOrder,
    findSku, simulateSales, subtractSales, addDeliveries,
    updateInventory, spoilLoop, spoilCostLoop, calculateFinancials,
    bumpMetrics, getEthicsLedger, dset, dget?, dgetD, dmem, pyInt,
    c8Cfg, c8Oracle, tempDraws, flatNp, holdDecision,
    quietDraws, baseEnv, waterSku, dummyQuote, AdvState.init,
    defaultAdversaryConfig, defaultSimulationState, List.getLastD,
    Option.isSome, Option.getD, envModLedgerEntry]

/-- Claim C8: the scheduler drains the adversary's ledger buffer each
tick so every entry appears exactly once in the final result. Refuted
by the code: `get_ethics_ledger` returns a copy of the full cumulative
ledger and nothing is ever cleared, so `_log_ethics_entries` re-appends
old entries every tick. In this two-tick run the adversary logs exactly
one entry (during tick 1), yet the run-level ledger contains it
twice. -/
theorem C8_ledger_entry_duplicated :
    c8Run.adv.ethics_ledger = [envModLedgerEntry 60 (1/10)] ∧
    (runSimulation c8Cfg defaultAdversaryConfig flatNp c8Oracle
        (AdvState.init 0)).map SimulationResult.ethics_ledger =
      .ok [envModLedgerEntry 60 (1/10), envModLedgerEntry 60 (1/10)] := by
  have ht : tickTimes c8Cfg = [60, 120] := by rfl
  have hrun : c8Run = c8Es2 := by
    show runLoop c8Cfg defaultAdversaryConfig flatNp c8Oracle
      (tickTimes c8Cfg) c8Es0 = c8Es2
    rw [ht, runLoop_cons, c8Step1, runLoop_cons, c8Step2, runLoop_nil]
  have hgen : generateEnvironmentalData flatNp c8Cfg.start_date =
      .ok baseEnv := by
    norm_num [generateEnvironmentalData, validateEnvironmentalData,
      flatNp, baseEnv, c8Cfg]
  constructor
  · rw [hrun]; rfl
  · rw [runSimulation_ok c8Cfg defaultAdversaryConfig flatNp c8Oracle
      (AdvState.init 0) baseEnv hgen]
    simp only [Except.map]
    show Except.ok (compileResults c8Run).ethics_ledger = _
    rw [hrun]
    rfl

/-! ### Tick inversion lemmas -/

/-- What a successfully produced tick state is made of. -/
lemma runTickCore_some_inv (cfg : SimulationConfig) (advC : AdversaryConfig)
    (np : NpSource) (o : TickOracles) (t : ℤ) (prev : SimulationState)
    (adv : AdvState) (st : SimulationState)
    (h : (runTickCore cfg advC np o t prev adv).2 = some st) :
    st.zen_decision = some (makeDecision o.zenResult prev.inventory
        st.environment cfg.sku_list) ∧
    st.sales = simulateSales cfg
        (makeDecision o.zenResult prev.inventory st.environment
          cfg.sku_list).prices st.environment prev.inventory.stock_levels
        (np.demandDraw t) ∧
    updateInventory cfg prev.inventory st.sales
        (makeDecision o.zenResult prev.inventory st.environment
          cfg.sku_list).order st.store_quotes = .ok st.inventory ∧
    calculateFinancials cfg st.sales
        (makeDecision o.zenResult prev.inventory st.environment
          cfg.sku_list).prices st.inventory st.store_quotes =
      .ok (st.revenue, st.costs, st.spoilage_cost) ∧
    st.gross_margin = (st.revenue - st.costs - st.spoilage_cost) /
      max st.revenue (1/1000000) := by
  simp only [runTickCore] at h
  rcases hg : generateEnvironmentalData np t with e | env0
  · rw [hg] at h
    exact absurd h (by simp)
  · rw [hg] at h
    dsimp only at h
    rcases hq : collectQuotes cfg o.quoteAt
        (makeDecision o.zenResult prev.inventory
          (modifyEnvironment advC o.wallTime cfg.adversary_budget
            env0 o.advDraws adv).1 cfg.sku_list) t with e | quotes
    · rw [hq] at h
      exact absurd h (by simp)
    · rw [hq] at h
      dsimp only at h
      rcases hu : updateInventory cfg prev.inventory
          (simulateSales cfg
            (makeDecision o.zenResult prev.inventory
              (modifyEnvironment advC o.wallTime cfg.adversary_budget
                env0 o.advDraws adv).1 cfg.sku_list).prices
            (modifyEnvironment advC o.wallTime cfg.adversary_budget
              env0 o.advDraws adv).1 prev.inventory.stock_levels
            (np.demandDraw t))
          (makeDecision o.zenResult prev.inventory
            (modifyEnvironment advC o.wallTime cfg.adversary_budget
              env0 o.advDraws adv).1 cfg.sku_list).order quotes
          with e | inv2
      · rw [hu] at h
        exact absurd h (by simp)
      · rw [hu] at h
        dsimp only at h
        rcases hf : calculateFinancials cfg
            (simulateSales cfg
              (makeDecision o.zenResult prev.inventory
                (modifyEnvironment advC o.wallTime cfg.adversary_budget
                  env0 o.advDraws adv).1 cfg.sku_list).prices
              (modifyEnvironment advC o.wallTime cfg.adversary_budget
                env0 o.advDraws adv).1 prev.inventory.stock_levels
              (np.demandDraw t))
            (makeDecision o.zenResult prev.inventory
              (modifyEnvironment advC o.wallTime cfg.adversary_budget
                env0 o.advDraws adv).1 cfg.sku_list).prices inv2
            quotes with e | trip
        · rw [hf] at h
          exact absurd h (by simp)
        · rw [hf] at h
          obtain ⟨rev, c, sp⟩ := trip
          dsimp only at h
          injection h with h
          subst h
          exact ⟨rfl, rfl, hu, hf, rfl⟩

/-- Every member of the reference sequence is a successful tick. -/
lemma specStateSequence_mem_inv (cfg : SimulationConfig)
    (advC : AdversaryConfig) (np : NpSource) (oracle : ℤ → TickOracles) :
    ∀ (ts : List ℤ) (prev : SimulationState) (adv : AdvState)
      (st : SimulationState),
      st ∈ specStateSequence cfg advC np oracle ts prev adv →
      ∃ t prev' adv',
        (runTickCore cfg advC np (oracle t) t prev' adv').2 = some st := by
  intro ts
  induction ts with
  | nil =>
      intro prev adv st h
      simp [specStateSequence] at h
  | cons t ts ih =>
      intro prev adv st h
      rcases hc : runTickCore cfg advC np (oracle t) t prev adv
        with ⟨adv1, ost⟩
      cases ost with
      | none =>
          rw [specStateSequence_cons_none cfg advC np oracle t ts _ _ _ hc]
            at h
          exact ih _ _ _ h
      | some st' =>
          rw [specStateSequence_cons_some cfg advC np oracle t ts _ _ _ _ hc]
            at h
          rcases List.mem_cons.mp h with rfl | h
          · exact ⟨t, prev, adv, by rw [hc]⟩
          · exact ih _ _ _ h

/-! ### C4 -/

lemma foldl_add_map_sum {β : Type} (f : β → ℚ) :
    ∀ (l : List β) (a : ℚ),
      l.foldl (fun acc x => acc + f x) a = a + (l.map f).sum := by
  intro l
  induction l with
  | nil => intro a; simp
  | cons x xs ih => intro a; simp [ih, add_assoc]

/-- The costs component of `_calculate_financials` is the sum of
`quote_price * quote_delivery_day` over the quotes. -/
lemma calculateFinancials_costs (cfg : SimulationConfig) (sales : Dict ℤ)
    (prices : Dict ℚ) (inv : InventoryState) (quotes : Dict StoreQuote)
    (rev c sp : ℚ)
    (h : calculateFinancials cfg sales prices inv quotes = .ok (rev, c, sp)) :
    c = (quotes.map
      (fun p => p.2.quote_price * (p.2.quote_delivery_day : ℚ))).sum := by
  simp only [calculateFinancials] at h
  rcases hs : spoilCostLoop cfg inv inv.spoilage_rates 0 with e | sc
  · rw [hs] at h
    exact absurd h (by simp)
  · rw [hs] at h
    dsimp only at h
    injection h with h
    have h2 : (quotes.foldl
        (fun acc p => acc + p.2.quote_price * (p.2.quote_delivery_day : ℚ))
        0) = c := congrArg (fun x => x.2.1) h
    rw [← h2, foldl_add_map_sum
      (fun p : String × StoreQuote =>
        p.2.quote_price * (p.2.quote_delivery_day : ℚ))]
    simp

/-- Claim C4 (amended): for every state of any completed run, the
recorded costs equal the sum over the tick's quotes of
`quote_price × quote_delivery_day` (the source multiplies the quote
price by the delivery day, not by the order quantity), and the gross
margin equals `(revenue − costs − spoilage) / max(revenue, 1e-6)`. -/
theorem C4_amended_costs_and_margin (cfg : SimulationConfig)
    (advC : AdversaryConfig) (np : NpSource) (oracle : ℤ → TickOracles)
    (adv0 : AdvState) (r : SimulationResult)
    (hr : runSimulation cfg advC np oracle adv0 = .ok r) :
    ∀ st ∈ r.states,
      st.costs = (st.store_quotes.map
        (fun p => p.2.quote_price * (p.2.quote_delivery_day : ℚ))).sum ∧
      st.gross_margin = (st.revenue - st.costs - st.spoilage_cost) /
        max st.revenue (1/1000000) := by
  intro st hst
  simp only [runSimulation] at hr
  rcases hg : generateEnvironmentalData np cfg.start_date with e | env0
  · rw [hg] at hr
    exact absurd hr (by simp)
  · rw [hg] at hr
    dsimp only at hr
    injection hr with hr
    subst hr
    rw [runSimulationFrom_states_eq] at hst
    rcases List.mem_cons.mp hst with rfl | hst
    · constructor
      · simp [initialState]
      · simp [initialState]
    · obtain ⟨t, prev', adv', hc⟩ :=
        specStateSequence_mem_inv cfg advC np oracle _ _ _ _ hst
      obtain ⟨-, -, -, hf, hm⟩ :=
        runTickCore_some_inv cfg advC np (oracle t) t prev' adv' st hc
      exact ⟨calculateFinancials_costs cfg _ _ _ _ _ _ _ hf, hm⟩

/-- Claim C4 counterexample: in the 1-tick run ordering 5 units quoted
at unit price 2 with delivery day 3, the recorded costs are
`2 × 3 = 6`, not the claim's `quote unit cost × order qty = 2 × 5`. -/
theorem C4_counterexample_costs_use_delivery_day :
    runSimulation c2Cfg defaultAdversaryConfig flatNp c4Oracle
      (AdvState.init 0) = .ok c4Run ∧
    (c4Run.states.map SimulationState.costs) = [0, 6] ∧
    dgetD c4Decision.order "water" 0 = 5 ∧
    dummyQuote.quote_price = 2 ∧
    (c4Run.states.getLastD defaultSimulationState).store_quotes =
      [("water", dummyQuote)] ∧
    (6 : ℚ) ≠ dummyQuote.quote_price *
      ((dgetD c4Decision.order "water" 0 : ℤ) : ℚ) := by
  have ht : tickTimes c2Cfg = [60] := by rfl
  have hgen : generateEnvironmentalData flatNp c2Cfg.start_date =
      .ok baseEnv := by
    norm_num [generateEnvironmentalData, validateEnvironmentalData,
      flatNp, baseEnv, c2Cfg]
  refine ⟨runSimulation_ok c2Cfg defaultAdversaryConfig flatNp c4Oracle
      (AdvState.init 0) baseEnv hgen,
    ?_, by norm_num [c4Decision, dgetD, dget?], by norm_num [dummyQuote],
    ?_, by norm_num [dummyQuote, c4Decision, dgetD, dget?]⟩ <;>
    norm_num [c4Run, runSimulationFrom, compileResults, runLoop, ht,
      runTickStep, runTickCore, generateEnvironmentalData,
      validateEnvironmentalData, initialState, modifyEnvironment,
      resetDailyBudget, applyEnvironmentalChanges, logEthicsEntry,
      makeDecision, collectQuotes, collectQuotesAux, createPurchaseOrder,
      findSku, simulateSales, subtractSales, addDeliveries,
      updateInventory, spoilLoop, spoilCostLoop, calculateFinancials,
      bumpMetrics, getEthicsLedger, dset, dget?, dgetD, dmem, pyInt,
      utcDate, c2Cfg, c4Oracle, c4Decision, flatNp, quietDraws, baseEnv,
      waterSku, dummyQuote, AdvState.init, defaultAdversaryConfig,
      defaultSimulationState, List.getLastD, Option.isSome, Option.getD]

/-- Witness for the amended C4 theorem at the initial state of a
concrete run. -/
theorem C4_amended_witness :
    (runSimulation c2Cfg defaultAdversaryConfig flatNp c4Oracle
        (AdvState.init 0) = .ok c4Run ∧
      initialState c2Cfg baseEnv ∈ c4Run.states) ∧
    ((initialState c2Cfg baseEnv).costs =
      ((initialState c2Cfg baseEnv).store_quotes.map
        (fun p => p.2.quote_price * (p.2.quote_delivery_day : ℚ))).sum ∧
      (initialState c2Cfg baseEnv).gross_margin =
        ((initialState c2Cfg baseEnv).revenue -
          (initialState c2Cfg baseEnv).costs -
          (initialState c2Cfg baseEnv).spoilage_cost) /
          max (initialState c2Cfg baseEnv).revenue (1/1000000)) := by
  have hgen : generateEnvironmentalData flatNp c2Cfg.start_date =
      .ok baseEnv := by
    norm_num [generateEnvironmentalData, validateEnvironmentalData,
      flatNp, baseEnv, c2Cfg]
  have hok : runSimulation c2Cfg defaultAdversaryConfig flatNp c4Oracle
      (AdvState.init 0) = .ok c4Run :=
    runSimulation_ok c2Cfg defaultAdversaryConfig flatNp c4Oracle
      (AdvState.init 0) baseEnv hgen
  have hmem : initialState c2Cfg baseEnv ∈ c4Run.states := by
    show initialState c2Cfg baseEnv ∈
      (runSimulationFrom c2Cfg defaultAdversaryConfig flatNp c4Oracle
        (AdvState.init 0) baseEnv).states
    rw [runSimulationFrom_states_eq]
    exact List.mem_cons_self _ _
  exact ⟨⟨hok, hmem⟩,
    C4_amended_costs_and_margin c2Cfg defaultAdversaryConfig flatNp
      c4Oracle (AdvState.init 0) c4Run hok
      (initialState c2Cfg baseEnv) hmem⟩

/-! ### C5 -/

/-- After the spoilage loop, every key's stock lookup is nonnegative:
every iterated key is clamped with `max(0, ...)`, and untouched keys
keep their (assumed nonnegative) lookup. -/
lemma spoilLoop_lookup_nonneg (cfg : SimulationConfig) :
    ∀ (items : List (String × ℤ)) (st0 : Dict ℤ) (rates : Dict ℚ)
      (out : Dict ℤ × Dict ℚ),
      spoilLoop cfg items st0 rates = .ok out →
      ∀ k, (k ∈ items.map Prod.fst ∨ 0 ≤ dgetD st0 k 0) →
        0 ≤ dgetD out.1 k 0 := by
  intro items
  induction items with
  | nil =>
      intro st0 rates out h k hk
      simp only [spoilLoop] at h
      injection h with h
      subst h
      rcases hk with hk | hk
      · simp at hk
      · exact hk
  | cons p rest ih =>
      obtain ⟨sid, stock⟩ := p
      intro st0 rates out h k hk
      simp only [spoilLoop] at h
      rcases hf : findSku cfg.sku_list sid with _ | sku
      · rw [hf] at h
        exact absurd h (by simp)
      · rw [hf] at h
        dsimp only at h
        refine ih _ _ _ h k ?_
        by_cases hks : k = sid
        · subst hks
          right
          simp only [dgetD, dget?_dset_self]
          simp
        · rcases hk with hk | hk
          · simp only [List.map_cons, List.mem_cons] at hk
            rcases hk with hk | hk
            · exact absurd hk hks
            · left
              exact hk
          · right
            simp only [dgetD]
            rw [dget?_dset_ne st0 sid k _ (Ne.symm hks)]
            exact hk

/-- Every successfully updated inventory has nonnegative stock lookups
for every key, whatever the inputs: the spoilage loop rewrites every
key of the dict with a `max(0, ...)` value. -/
lemma updateInventory_lookup_nonneg (cfg : SimulationConfig)
    (prev : InventoryState) (sales : Dict ℤ) (orders : Dict ℤ)
    (quotes : Dict StoreQuote) (inv' : InventoryState)
    (h : updateInventory cfg prev sales orders quotes = .ok inv') :
    ∀ k, 0 ≤ dgetD inv'.stock_levels k 0 := by
  intro k
  simp only [updateInventory] at h
  rcases hs : spoilLoop cfg
      (addDeliveries (subtractSales prev.stock_levels sales) orders quotes)
      (addDeliveries (subtractSales prev.stock_levels sales) orders quotes)
      [] with e | out
  · rw [hs] at h
    exact absurd h (by simp)
  · rw [hs] at h
    dsimp only at h
    injection h with h
    subst h
    dsimp only
    refine spoilLoop_lookup_nonneg cfg _ _ _ _ hs k ?_
    rcases hk : dget? (addDeliveries (subtractSales prev.stock_levels sales)
        orders quotes) k with _ | v
    · right
      simp [dgetD, hk]
    · left
      exact dget?_some_mem _ _ _ hk

/-- Claim C5: in any completed run started from a configuration whose
initial inventory is nonnegative (the config contract), every appended
state's stock lookup is nonnegative for every SKU. -/
theorem C5_stock_levels_nonneg (cfg : SimulationConfig)
    (advC : AdversaryConfig) (np : NpSource) (oracle : ℤ → TickOracles)
    (adv0 : AdvState) (r : SimulationResult)
    (hr : runSimulation cfg advC np oracle adv0 = .ok r)
    (hinit : ∀ k, 0 ≤ dgetD cfg.initial_inventory k 0) :
    ∀ st ∈ r.states,
      ∀ k, 0 ≤ dgetD st.inventory.stock_levels k 0 := by
  intro st hst k
  simp only [runSimulation] at hr
  rcases hg : generateEnvironmentalData np cfg.start_date with e | env0
  · rw [hg] at hr
    exact absurd hr (by simp)
  · rw [hg] at hr
    dsimp only at hr
    injection hr with hr
    subst hr
    rw [runSimulationFrom_states_eq] at hst
    rcases List.mem_cons.mp hst with rfl | hst
    · simpa [initialState] using hinit k
    · obtain ⟨t, prev', adv', hc⟩ :=
        specStateSequence_mem_inv cfg advC np oracle _ _ _ _ hst
      obtain ⟨-, -, hu, -, -⟩ :=
        runTickCore_some_inv cfg advC np (oracle t) t prev' adv' st hc
      exact updateInventory_lookup_nonneg cfg _ _ _ _ _ hu k

/-- Witness for C5 on the concrete scenario run. -/
theorem C5_witness :
    ((runSimulation c10Cfg defaultAdversaryConfig (c10Np 1) c10Oracle
        (AdvState.init 0) = .ok (c10Run 1)) ∧
      (∀ k, 0 ≤ dgetD c10Cfg.initial_inventory k 0)) ∧
    (∀ st ∈ (c10Run 1).states,
      ∀ k, 0 ≤ dgetD st.inventory.stock_levels k 0) := by
  have hgen : generateEnvironmentalData (c10Np 1) c10Cfg.start_date =
      .ok baseEnv := by
    norm_num [generateEnvironmentalData, validateEnvironmentalData,
      c10Np, baseEnv, c10Cfg]
  have hok : runSimulation c10Cfg defaultAdversaryConfig (c10Np 1)
      c10Oracle (AdvState.init 0) = .ok (c10Run 1) :=
    runSimulation_ok c10Cfg defaultAdversaryConfig (c10Np 1) c10Oracle
      (AdvState.init 0) baseEnv hgen
  have hinit : ∀ k, 0 ≤ dgetD c10Cfg.initial_inventory k 0 := fun k => by
    by_cases h : ("water" : String) = k <;>
      simp [c10Cfg, dgetD, dget?, h]
  exact ⟨⟨hok, hinit⟩,
    C5_stock_levels_nonneg c10Cfg defaultAdversaryConfig (c10Np 1)
      c10Oracle (AdvState.init 0) (c10Run 1) hok hinit⟩

/-! ### C9 -/

/-- Folding the fallback loop over SKUs not mentioning `k` leaves the
lookups at `k` unchanged. -/
lemma fallback_foldl_not_mem (inv : InventoryState) :
    ∀ (skus : List Sku) (acc : Dict ℚ × Dict ℤ) (k : String),
      k ∉ skus.map Sku.id →
      dget? (skus.foldl (fallbackStep inv) acc).1 k = dget? acc.1 k ∧
      dget? (skus.foldl (fallbackStep inv) acc).2 k = dget? acc.2 k := by
  intro skus
  induction skus with
  | nil => intro acc k hk; exact ⟨rfl, rfl⟩
  | cons s rest ih =>
      intro acc k hk
      simp only [List.map_cons, List.mem_cons, not_or] at hk
      obtain ⟨hk1, hk2⟩ := hk
      simp only [List.foldl_cons]
      have hr := ih (fallbackStep inv acc s) k hk2
      constructor
      · rw [hr.1]
        exact dget?_dset_ne _ _ _ _ (fun hh => hk1 hh.symm)
      · rw [hr.2]
        exact dget?_dset_ne _ _ _ _ (fun hh => hk1 hh.symm)

/-- With duplicate-free SKU ids, the fallback loop assigns each SKU the
banded price and quantity. -/
lemma fallback_foldl_lookup (inv : InventoryState) :
    ∀ (skus : List Sku) (acc : Dict ℚ × Dict ℤ),
      (skus.map Sku.id).Nodup →
      ∀ sku ∈ skus,
        dget? (skus.foldl (fallbackStep inv) acc).1 sku.id =
          some (fallbackPrice inv sku) ∧
        dget? (skus.foldl (fallbackStep inv) acc).2 sku.id =
          some (fallbackQty inv sku) := by
  intro skus
  induction skus with
  | nil => intro acc hnd sku hs; simp at hs
  | cons s rest ih =>
      intro acc hnd sku hs
      simp only [List.map_cons, List.nodup_cons] at hnd
      obtain ⟨hnotin, hnd⟩ := hnd
      simp only [List.foldl_cons]
      rcases List.mem_cons.mp hs with rfl | hs
      · have hpres :=
          fallback_foldl_not_mem inv rest (fallbackStep inv acc sku)
            sku.id hnotin
        constructor
        · rw [hpres.1]
          exact dget?_dset_self _ _ _
        · rw [hpres.2]
          exact dget?_dset_self _ _ _
      · exact ih (fallbackStep inv acc s) hnd sku hs

lemma fallbackDecision_lookup (inv : InventoryState)
    (env : EnvironmentalData) (skus : List Sku)
    (hnd : (skus.map Sku.id).Nodup) (sku : Sku) (hs : sku ∈ skus) :
    dget? (fallbackDecision inv env skus).prices sku.id =
      some (fallbackPrice inv sku) ∧
    dget? (fallbackDecision inv env skus).order sku.id =
      some (fallbackQty inv sku) := by
  simpa [fallbackDecision] using
    fallback_foldl_lookup inv skus ([], []) hnd sku hs

/-- Claim C9 (amended): whenever the decision provider raises (zen
result `none`) and the tick otherwise completes, the appended state's
decision is exactly `_fallback_decision` of the previous state's
inventory, the state is appended, and the run continues with the
remaining ticks; the fallback prices/orders follow the source's bands
(`fallbackPrice`: 1.05·MSRP below stock 3, 0.95·MSRP above stock 20,
else MSRP; `fallbackQty`: `20 − stock` below stock 10, else 0) rather
than the claim's `price = MSRP`, `order = max(0, target − stock)`. -/
theorem C9_fallback_on_provider_failure (cfg : SimulationConfig)
    (advC : AdversaryConfig) (np : NpSource) (oracle : ℤ → TickOracles)
    (ts : List ℤ) (t : ℤ) (es : EngineState) (adv1 : AdvState)
    (st : SimulationState)
    (hz : (oracle t).zenResult = none)
    (hc : runTickCore cfg advC np (oracle t) t
      (es.states.getLastD defaultSimulationState) es.adv =
        (adv1, some st)) :
    st.zen_decision = some (fallbackDecision
      (es.states.getLastD defaultSimulationState).inventory
      st.environment cfg.sku_list) ∧
    (runLoop cfg advC np oracle (t :: ts) es).states =
      (es.states ++ [st]) ++
        specStateSequence cfg advC np oracle ts st adv1 ∧
    ((cfg.sku_list.map Sku.id).Nodup → ∀ sku ∈ cfg.sku_list,
      dget? (fallbackDecision
          (es.states.getLastD defaultSimulationState).inventory
          st.environment cfg.sku_list).prices sku.id =
        some (fallbackPrice
          (es.states.getLastD defaultSimulationState).inventory sku) ∧
      dget? (fallbackDecision
          (es.states.getLastD defaultSimulationState).inventory
          st.environment cfg.sku_list).order sku.id =
        some (fallbackQty
          (es.states.getLastD defaultSimulationState).inventory sku)) := by
  have hinv := runTickCore_some_inv cfg advC np (oracle t) t
    (es.states.getLastD defaultSimulationState) es.adv st
    (congrArg Prod.snd hc)
  refine ⟨?_, ?_, ?_⟩
  · have h1 := hinv.1
    rw [hz] at h1
    simpa [makeDecision] using h1
  · rw [runLoop_cons,
      runTickStep_some cfg advC np (oracle t) t es adv1 st hc,
      runLoop_states_eq]
    dsimp only
    rw [getLastD_concat]
  · intro hnd sku hs
    exact fallbackDecision_lookup _ _ _ hnd sku hs

/-- Claim C9 counterexample: the code's fallback is not
`price = MSRP, order = max(0, 20 − stock)`. With stock 2 the fallback
price is 1.05 × 1.50 = 1.575 ≠ 1.50; with stock 12 the fallback order
is 0 while `max(0, 20 − 12) = 8`. -/
theorem C9_counterexample_fallback_formula :
    dget? (fallbackDecision c9InvLow baseEnv [waterSku]).prices "water" =
      some (63/40) ∧
    (63/40 : ℚ) ≠ waterSku.msrp ∧
    dget? (fallbackDecision c9InvMid baseEnv [waterSku]).order "water" =
      some 0 ∧
    (0 : ℤ) ≠ max 0 (20 - 12) := by
  refine ⟨?_, by norm_num [waterSku], ?_, by norm_num⟩ <;>
    norm_num [fallbackDecision, fallbackStep, fallbackPrice, fallbackQty,
      c9InvLow, c9InvMid, waterSku, dgetD, dget?, dset]

set_option maxHeartbeats 1000000 in
lemma c9Tick_some :
    runTickCore c10Cfg defaultAdversaryConfig (c10Np 1) (c9Oracle 60) 60
      (c9Es.states.getLastD defaultSimulationState) c9Es.adv =
      (c9Tick.1, some (c9Tick.2.getD defaultSimulationState)) := by
  have h : c9Tick.2.isSome = true := by
    norm_num [c9Tick, c9Es, c9Oracle, runTickCore,
      generateEnvironmentalData, validateEnvironmentalData, initialState,
      modifyEnvironment, resetDailyBudget, applyEnvironmentalChanges,
      logEthicsEntry, makeDecision, fallbackDecision, fallbackStep,
      fallbackPrice, fallbackQty, collectQuotes, collectQuotesAux,
      createPurchaseOrder, findSku, simulateSales, subtractSales,
      addDeliveries, updateInventory, spoilLoop, spoilCostLoop,
      calculateFinancials, dset, dget?, dgetD, dmem, pyInt, utcDate,
      c10Cfg, c10Np, quietDraws, baseEnv, waterSku, dummyQuote,
      AdvState.init, defaultAdversaryConfig, defaultSimulationState,
      List.getLastD, Option.isSome, Option.getD]
  have h2 : c9Tick.2 = some (c9Tick.2.getD defaultSimulationState) := by
    rcases ho : c9Tick.2 with _ | v
    · rw [ho] at h
      simp at h
    · simp [ho]
  show c9Tick = (c9Tick.1, some (c9Tick.2.getD defaultSimulationState))
  rw [← h2]

/-- Witness for C9 on a concrete run whose provider fails. -/
theorem C9_witness :
    ((c9Oracle 60).zenResult = none ∧
      runTickCore c10Cfg defaultAdversaryConfig (c10Np 1) (c9Oracle 60) 60
        (c9Es.states.getLastD defaultSimulationState) c9Es.adv =
        (c9Tick.1, some (c9Tick.2.getD defaultSimulationState))) ∧
    ((c9Tick.2.getD defaultSimulationState).zen_decision =
      some (fallbackDecision
        (c9Es.states.getLastD defaultSimulationState).inventory
        (c9Tick.2.getD defaultSimulationState).environment
        c10Cfg.sku_list) ∧
      (runLoop c10Cfg defaultAdversaryConfig (c10Np 1) c9Oracle
        (60 :: []) c9Es).states =
        (c9Es.states ++ [c9Tick.2.getD defaultSimulationState]) ++
          specStateSequence c10Cfg defaultAdversaryConfig (c10Np 1)
            c9Oracle [] (c9Tick.2.getD defaultSimulationState) c9Tick.1 ∧
      ((c10Cfg.sku_list.map Sku.id).Nodup → ∀ sku ∈ c10Cfg.sku_list,
        dget? (fallbackDecision
            (c9Es.states.getLastD defaultSimulationState).inventory
            (c9Tick.2.getD defaultSimulationState).environment
            c10Cfg.sku_list).prices sku.id =
          some (fallbackPrice
            (c9Es.states.getLastD defaultSimulationState).inventory sku) ∧
        dget? (fallbackDecision
            (c9Es.states.getLastD defaultSimulationState).inventory
            (c9Tick.2.getD defaultSimulationState).environment
            c10Cfg.sku_list).order sku.id =
          some (fallbackQty
            (c9Es.states.getLastD defaultSimulationState).inventory
            sku))) :=
  ⟨⟨rfl, c9Tick_some⟩,
    C9_fallback_on_provider_failure c10Cfg defaultAdversaryConfig
      (c10Np 1) c9Oracle [] 60 c9Es c9Tick.1
      (c9Tick.2.getD defaultSimulationState) rfl c9Tick_some⟩

/-! ### C10 -/

set_option maxHeartbeats 2000000 in
set_option maxRecDepth 8000 in
/-- Claim C10: in the water scenario (stock 2, price = MSRP = 1.50, no
order), for every possible Poisson draw the run appends exactly one
tick state in which at most 2 units are sold, the remaining stock is
nonnegative, and revenue equals price × units sold. -/
theorem C10_water_scenario (d : ℕ) :
    runSimulation c10Cfg defaultAdversaryConfig (c10Np d) c10Oracle
      (AdvState.init 0) = .ok (c10Run d) ∧
    (c10Run d).states.length = 2 ∧
    dgetD (c10Last d).sales "water" 0 ≤ 2 ∧
    0 ≤ dgetD (c10Last d).inventory.stock_levels "water" 0 ∧
    (c10Last d).revenue =
      (3/2) * ((dgetD (c10Last d).sales "water" 0 : ℤ) : ℚ) := by
  have ht : tickTimes c10Cfg = [60] := by rfl
  have hgen : generateEnvironmentalData (c10Np d) c10Cfg.start_date =
      .ok baseEnv := by
    norm_num [generateEnvironmentalData, validateEnvironmentalData,
      c10Np, baseEnv, c10Cfg]
  refine And.intro (runSimulation_ok c10Cfg defaultAdversaryConfig
    (c10Np d) c10Oracle (AdvState.init 0) baseEnv hgen) ?_
  rcases d with _ | _ | n
  · refine ⟨?_, ?_, ?_, ?_⟩ <;>
      norm_num [c10Run, c10Last, runSimulationFrom, compileResults,
        runLoop, ht, runTickStep, runTickCore, generateEnvironmentalData,
        validateEnvironmentalData, initialState, modifyEnvironment,
        resetDailyBudget, applyEnvironmentalChanges, logEthicsEntry,
        makeDecision, collectQuotes, collectQuotesAux,
        createPurchaseOrder, findSku, simulateSales, subtractSales,
        addDeliveries, updateInventory, spoilLoop, spoilCostLoop,
        calculateFinancials, bumpMetrics, getEthicsLedger, dset, dget?,
        dgetD, dmem, pyInt, utcDate, c10Cfg, c10Oracle, c10Decision,
        c10Np, quietDraws, baseEnv, waterSku, dummyQuote, AdvState.init,
        defaultAdversaryConfig, defaultSimulationState, List.getLastD,
        Option.isSome, Option.getD]
  · refine ⟨?_, ?_, ?_, ?_⟩ <;>
      norm_num [c10Run, c10Last, runSimulationFrom, compileResults,
        runLoop, ht, runTickStep, runTickCore, generateEnvironmentalData,
        validateEnvironmentalData, initialState, modifyEnvironment,
        resetDailyBudget, applyEnvironmentalChanges, logEthicsEntry,
        makeDecision, collectQuotes, collectQuotesAux,
        createPurchaseOrder, findSku, simulateSales, subtractSales,
        addDeliveries, updateInventory, spoilLoop, spoilCostLoop,
        calculateFinancials, bumpMetrics, getEthicsLedger, dset, dget?,
        dgetD, dmem, pyInt, utcDate, c10Cfg, c10Oracle, c10Decision,
        c10Np, quietDraws, baseEnv, waterSku, dummyQuote, AdvState.init,
        defaultAdversaryConfig, defaultSimulationState, List.getLastD,
        Option.isSome, Option.getD]
  · have hmin1 : min ((n + 1 + 1 : ℕ) : ℤ) 2 = 2 := by omega
    have hmin2 : min ((n : ℤ) + 1 + 1) 2 = 2 := by omega
    have hmin3 : min ((n : ℤ) + 2) 2 = 2 := by omega
    have hmin4 : min ((n + 2 : ℕ) : ℤ) 2 = 2 := by omega
    refine ⟨?_, ?_, ?_, ?_⟩ <;>
      norm_num [hmin1, hmin2, hmin3, hmin4, c10Run, c10Last,
        runSimulationFrom, compileResults,
        runLoop, ht, runTickStep, runTickCore, generateEnvironmentalData,
        validateEnvironmentalData, initialState,
        modifyEnvironment, resetDailyBudget, applyEnvironmentalChanges,
        logEthicsEntry, makeDecision, collectQuotes, collectQuotesAux,
        createPurchaseOrder, findSku, simulateSales, subtractSales,
        addDeliveries, updateInventory, spoilLoop, spoilCostLoop,
        calculateFinancials, bumpMetrics, getEthicsLedger, dset, dget?,
        dgetD, dmem, pyInt, utcDate, c10Cfg, c10Oracle, c10Decision,
        c10Np, quietDraws, baseEnv, waterSku, dummyQuote, AdvState.init,
        defaultAdversaryConfig, defaultSimulationState, List.getLastD,
        Option.isSome, Option.getD]

end ZenMachine
